import Mathlib

/-!
ESP32-S3 external-memory cache and MMU: layout of `include/hw/misc/esp32s3_cache.h`.

A shallow embedding of the declarations of the header: the address
constants, the `ESP32S3MMUEntry` union, the device state arrays and the
register map written with `REG32` and `FIELD`.

Machine words are natural numbers; a `uint32_t` value is a natural number
below `2 ^ 32` and a store into a `uint32_t` object reduces modulo `2 ^ 32`.
-/

namespace ESP32S3Cache

/-! ## Constants of the header -/

/-- Size in bytes of `uint32_t`, the result of `sizeof(uint32_t)`. -/
def sizeof_uint32_t : Nat := 4

/-- Modulus of the `uint32_t` type. -/
def UINT32_MOD : Nat := 2 ^ 32

/-- Source: `#define ESP32S3_DCACHE_BASE 0x3c000000`. -/
def ESP32S3_DCACHE_BASE : Nat := 0x3c000000

/-- Source: `#define ESP32S3_ICACHE_BASE 0x42000000`. -/
def ESP32S3_ICACHE_BASE : Nat := 0x42000000

/-- Source: `#define ESP32S3_MMU_SIZE 0x800`. -/
def ESP32S3_MMU_SIZE : Nat := 0x800

/-- Source: `#define ESP32S3_ICACHE_MMU_SIZE 0x800`. -/
def ESP32S3_ICACHE_MMU_SIZE : Nat := 0x800

/-- Source: `#define ESP32S3_DCACHE_MMU_SIZE 0x800`. -/
def ESP32S3_DCACHE_MMU_SIZE : Nat := 0x800

/-- Source: `#define ESP32S3_PAGE_SIZE (64*1024)`. -/
def ESP32S3_PAGE_SIZE : Nat := 64 * 1024

/-- Source: `#define ESP32S3_MMU_TABLE_ENTRY_COUNT (ESP32S3_MMU_SIZE/sizeof(uint32_t))`. -/
def ESP32S3_MMU_TABLE_ENTRY_COUNT : Nat := ESP32S3_MMU_SIZE / sizeof_uint32_t

/-- Source: `#define ESP32S3_EXTMEM_REGION_SIZE 0x2000000`. -/
def ESP32S3_EXTMEM_REGION_SIZE : Nat := 0x2000000

/-- Source: `#define ESP32S3_CACHE_BLOCK_SIZE 32`. -/
def ESP32S3_CACHE_BLOCK_SIZE : Nat := 32

/-- Source: `#define ESP32S3_CACHE_BLOCK_COUNT 512`. -/
def ESP32S3_CACHE_BLOCK_COUNT : Nat := 512

/-- Source: `#define ESP32S3_CACHE_SIZE (ESP32S3_CACHE_BLOCK_COUNT * ESP32S3_CACHE_BLOCK_SIZE)`. -/
def ESP32S3_CACHE_SIZE : Nat := ESP32S3_CACHE_BLOCK_COUNT * ESP32S3_CACHE_BLOCK_SIZE

/-- Source: `#define TYPE_ESP32S3_CACHE_IO_SIZE 0x1000`. -/
def TYPE_ESP32S3_CACHE_IO_SIZE : Nat := 0x1000

/-- Source: `#define ESP32S3_CACHE_REG_COUNT (0x200 / sizeof(uint32_t))`. -/
def ESP32S3_CACHE_REG_COUNT : Nat := 0x200 / sizeof_uint32_t

/-- Source: `#define ESP32S3_CACHE_REG_IDX(addr) ((addr) / sizeof(uint32_t))`. -/
def ESP32S3_CACHE_REG_IDX (addr : Nat) : Nat := addr / sizeof_uint32_t

/-! ## The MMU entry union -/

/-- Source: `typedef union ESP32S3MMUEntry`.  The union is one `uint32_t` of
storage, kept here as its `val` member; the members of the anonymous
bit-field struct are views of the same storage.  Bit-fields are allocated
from the least significant bit upwards, in declaration order, as the
little-endian ABIs this device model is built for do:
`page_number` is bits 0..7, `invalid` is bit 8, `reserved` is bits 9..31. -/
structure ESP32S3MMUEntry where
  val : Nat
deriving DecidableEq, Repr

namespace ESP32S3MMUEntry

/-- The store `e.val = v` into the `uint32_t` member. -/
def of_val (v : Nat) : ESP32S3MMUEntry := ⟨v % UINT32_MOD⟩

/-- Read of the bit-field `page_number : 8`. -/
def page_number (e : ESP32S3MMUEntry) : Nat := e.val % 2 ^ 8

/-- Read of the bit-field `invalid : 1`. -/
def invalid (e : ESP32S3MMUEntry) : Nat := e.val / 2 ^ 8 % 2 ^ 1

/-- Read of the bit-field `reserved : 23`. -/
def reserved (e : ESP32S3MMUEntry) : Nat := e.val / 2 ^ 9 % 2 ^ 23

/-- The store `e.page_number = p`: the value is converted to the 8-bit
field type and replaces bits 0..7, the other bits are kept. -/
def set_page_number (e : ESP32S3MMUEntry) (p : Nat) : ESP32S3MMUEntry :=
  ⟨e.val / 2 ^ 8 * 2 ^ 8 + p % 2 ^ 8⟩

/-- The store `e.invalid = b`: the value is converted to the 1-bit field
type and replaces bit 8, the other bits are kept. -/
def set_invalid (e : ESP32S3MMUEntry) (b : Nat) : ESP32S3MMUEntry :=
  ⟨e.val / 2 ^ 9 * 2 ^ 9 + b % 2 ^ 1 * 2 ^ 8 + e.val % 2 ^ 8⟩

/-- The store `e.reserved = r`: the value is converted to the 23-bit field
type and replaces bits 9..31, the other bits are kept. -/
def set_reserved (e : ESP32S3MMUEntry) (r : Nat) : ESP32S3MMUEntry :=
  ⟨r % 2 ^ 23 * 2 ^ 9 + e.val % 2 ^ 9⟩

/-- The three field stores `page_number = p`, `invalid = b`, `reserved = 0`
applied in declaration order to an entry `e`. -/
def write_fields (e : ESP32S3MMUEntry) (p b : Nat) : ESP32S3MMUEntry :=
  set_reserved (set_invalid (set_page_number e p) b) 0

/-- The pair read back from an entry through its fields. -/
def decode (e : ESP32S3MMUEntry) : Nat × Nat := (e.page_number, e.invalid)

/-- The 32-bit representation of the entry whose fields are
`page_number = p`, `invalid = b`, `reserved = 0`. -/
def encode (p b : Nat) : Nat := (write_fields ⟨0⟩ p b).val

end ESP32S3MMUEntry

/-- Source: `_Static_assert(sizeof(ESP32S3MMUEntry) == sizeof(uint32_t), ...)`:
the union has one `uint32_t` member and a struct of 8 + 1 + 23 bits. -/
def sizeof_ESP32S3MMUEntry : Nat := (8 + 1 + 23) / 8

/-! ## Register declarations

`REG32(reg, addr)` of `hw/registerfields.h` declares the byte offset
`A_reg = addr` and the word index `R_reg = addr / 4`;
`FIELD(reg, field, shift, length)` declares `R_reg_field_SHIFT`,
`R_reg_field_LENGTH` and `R_reg_field_MASK`.  A declaration is kept as a
record of the macro arguments. -/

/-- One `FIELD(reg, field, shift, length)` line. -/
structure Field where
  reg : String
  field : String
  shift : Nat
  length : Nat
deriving DecidableEq, Repr

/-- One `REG32(reg, addr)` line together with the `FIELD` lines naming it. -/
structure Reg32 where
  reg : String
  addr : Nat
  fields : List Field
deriving DecidableEq, Repr

/-- Constructor spelling of the `FIELD` line. -/
def FIELD (reg field : String) (shift length : Nat) : Field := ⟨reg, field, shift, length⟩

/-- Constructor spelling of the `REG32` line followed by its fields. -/
def REG32 (reg : String) (addr : Nat) (fields : List Field) : Reg32 := ⟨reg, addr, fields⟩

/-- The enumerator `A_reg` of `REG32`: the byte offset. -/
def Reg32.A (r : Reg32) : Nat := r.addr

/-- The enumerator `R_reg` of `REG32`: the word index `(addr) / 4`. -/
def Reg32.R (r : Reg32) : Nat := r.addr / 4

/-- Source: `REG32(EXTMEM_DCACHE_CTRL, 0x000)` with its `FIELD` lines. -/
def EXTMEM_DCACHE_CTRL : Reg32 :=
  REG32 "EXTMEM_DCACHE_CTRL" (0x000)
  [FIELD "EXTMEM_DCACHE_CTRL" "ENABLE" 0 1]

/-- Source: `REG32(EXTMEM_DCACHE_CTRL1, 0x004)` with its `FIELD` lines. -/
def EXTMEM_DCACHE_CTRL1 : Reg32 :=
  REG32 "EXTMEM_DCACHE_CTRL1" (0x004)
  [FIELD "EXTMEM_DCACHE_CTRL1" "SHUT_DBUS" 1 1,
   FIELD "EXTMEM_DCACHE_CTRL1" "SHUT_IBUS" 0 1]

/-- Source: `REG32(EXTMEM_DCACHE_TAG_POWER_CTRL, 0x008)` with its `FIELD` lines. -/
def EXTMEM_DCACHE_TAG_POWER_CTRL : Reg32 :=
  REG32 "EXTMEM_DCACHE_TAG_POWER_CTRL" (0x008)
  [FIELD "EXTMEM_DCACHE_TAG_POWER_CTRL" "TAG_MEM_FORCE_PU" 2 1,
   FIELD "EXTMEM_DCACHE_TAG_POWER_CTRL" "TAG_MEM_FORCE_PD" 1 1,
   FIELD "EXTMEM_DCACHE_TAG_POWER_CTRL" "TAG_MEM_FORCE_ON" 0 1]

/-- Source: `REG32(EXTMEM_DCACHE_PRELOCK_CTRL, 0x00C)` with its `FIELD` lines. -/
def EXTMEM_DCACHE_PRELOCK_CTRL : Reg32 :=
  REG32 "EXTMEM_DCACHE_PRELOCK_CTRL" (0x00C)
  [FIELD "EXTMEM_DCACHE_PRELOCK_CTRL" "PRELOCK_SCT1_EN" 1 1,
   FIELD "EXTMEM_DCACHE_PRELOCK_CTRL" "PRELOCK_SCT0_EN" 0 1]

/-- Source: `REG32(EXTMEM_DCACHE_PRELOCK_SCT0_ADDR, 0x010)` with its `FIELD` lines. -/
def EXTMEM_DCACHE_PRELOCK_SCT0_ADDR : Reg32 :=
  REG32 "EXTMEM_DCACHE_PRELOCK_SCT0_ADDR" (0x010)
  [FIELD "EXTMEM_DCACHE_PRELOCK_SCT0_ADDR" "PRELOCK_SCT0_ADDR" 0 32]

/-- Source: `REG32(EXTMEM_DCACHE_PRELOCK_SCT1_ADDR, 0x014)` with its `FIELD` lines. -/
def EXTMEM_DCACHE_PRELOCK_SCT1_ADDR : Reg32 :=
  REG32 "EXTMEM_DCACHE_PRELOCK_SCT1_ADDR" (0x014)
  [FIELD "EXTMEM_DCACHE_PRELOCK_SCT1_ADDR" "PRELOCK_SCT1_ADDR" 0 32]

/-- Source: `REG32(EXTMEM_DCACHE_PRELOCK_SCT_SIZE, 0x018)` with its `FIELD` lines. -/
def EXTMEM_DCACHE_PRELOCK_SCT_SIZE : Reg32 :=
  REG32 "EXTMEM_DCACHE_PRELOCK_SCT_SIZE" (0x018)
  [FIELD "EXTMEM_DCACHE_PRELOCK_SCT_SIZE" "PRELOCK_SCT0_SIZE" 16 16,
   FIELD "EXTMEM_DCACHE_PRELOCK_SCT_SIZE" "PRELOCK_SCT1_SIZE" 0 16]

/-- Source: `REG32(EXTMEM_DCACHE_LOCK_CTRL, 0x01C)` with its `FIELD` lines. -/
def EXTMEM_DCACHE_LOCK_CTRL : Reg32 :=
  REG32 "EXTMEM_DCACHE_LOCK_CTRL" (0x01C)
  [FIELD "EXTMEM_DCACHE_LOCK_CTRL" "LOCK_DONE" 2 1,
   FIELD "EXTMEM_DCACHE_LOCK_CTRL" "UNLOCK_ENA" 1 1,
   FIELD "EXTMEM_DCACHE_LOCK_CTRL" "LOCK_ENA" 0 1]

/-- Source: `REG32(EXTMEM_DCACHE_LOCK_ADDR, 0x020)` with its `FIELD` lines. -/
def EXTMEM_DCACHE_LOCK_ADDR : Reg32 :=
  REG32 "EXTMEM_DCACHE_LOCK_ADDR" (0x020)
  [FIELD "EXTMEM_DCACHE_LOCK_ADDR" "LOCK_ADDR" 0 32]

/-- Source: `REG32(EXTMEM_DCACHE_LOCK_SIZE, 0x024)` with its `FIELD` lines. -/
def EXTMEM_DCACHE_LOCK_SIZE : Reg32 :=
  REG32 "EXTMEM_DCACHE_LOCK_SIZE" (0x024)
  [FIELD "EXTMEM_DCACHE_LOCK_SIZE" "LOCK_SIZE" 0 16]

/-- Source: `REG32(EXTMEM_DCACHE_SYNC_CTRL, 0x028)` with its `FIELD` lines. -/
def EXTMEM_DCACHE_SYNC_CTRL : Reg32 :=
  REG32 "EXTMEM_DCACHE_SYNC_CTRL" (0x028)
  [FIELD "EXTMEM_DCACHE_SYNC_CTRL" "SYNC_DONE" 1 1,
   FIELD "EXTMEM_DCACHE_SYNC_CTRL" "INVALIDATE_ENA" 0 1]

/-- Source: `REG32(EXTMEM_DCACHE_SYNC_ADDR, 0x02C)` with its `FIELD` lines. -/
def EXTMEM_DCACHE_SYNC_ADDR : Reg32 :=
  REG32 "EXTMEM_DCACHE_SYNC_ADDR" (0x02C)
  [FIELD "EXTMEM_DCACHE_SYNC_ADDR" "SYNC_ADDR" 0 32]

/-- Source: `REG32(EXTMEM_DCACHE_SYNC_SIZE, 0x030)` with its `FIELD` lines. -/
def EXTMEM_DCACHE_SYNC_SIZE : Reg32 :=
  REG32 "EXTMEM_DCACHE_SYNC_SIZE" (0x030)
  [FIELD "EXTMEM_DCACHE_SYNC_SIZE" "SYNC_SIZE" 0 23]

/-- Source: `REG32(EXTMEM_DCACHE_PRELOAD_CTRL, 0x040)` with its `FIELD` lines. -/
def EXTMEM_DCACHE_PRELOAD_CTRL : Reg32 :=
  REG32 "EXTMEM_DCACHE_PRELOAD_CTRL" (0x040)
  [FIELD "EXTMEM_DCACHE_PRELOAD_CTRL" "PRELOAD_ORDER" 2 1,
   FIELD "EXTMEM_DCACHE_PRELOAD_CTRL" "PRELOAD_DONE" 1 1,
   FIELD "EXTMEM_DCACHE_PRELOAD_CTRL" "PRELOAD_ENA" 0 1]

/-- Source: `REG32(EXTMEM_DCACHE_AUTOLOAD_CTRL, 0x04c)` with its `FIELD` lines. -/
def EXTMEM_DCACHE_AUTOLOAD_CTRL : Reg32 :=
  REG32 "EXTMEM_DCACHE_AUTOLOAD_CTRL" (0x04c)
  [FIELD "EXTMEM_DCACHE_AUTOLOAD_CTRL" "AUTOLOAD_RQST" 5 2,
   FIELD "EXTMEM_DCACHE_AUTOLOAD_CTRL" "AUTOLOAD_ORDER" 4 1,
   FIELD "EXTMEM_DCACHE_AUTOLOAD_CTRL" "AUTOLOAD_DONE" 3 1,
   FIELD "EXTMEM_DCACHE_AUTOLOAD_CTRL" "AUTOLOAD_ENA" 2 1,
   FIELD "EXTMEM_DCACHE_AUTOLOAD_CTRL" "AUTOLOAD_SCT1_ENA" 1 1,
   FIELD "EXTMEM_DCACHE_AUTOLOAD_CTRL" "AUTOLOAD_SCT0_ENA" 0 1]

/-- Source: `REG32(EXTMEM_ICACHE_CTRL, 0x000 + 0x060)` with its `FIELD` lines. -/
def EXTMEM_ICACHE_CTRL : Reg32 :=
  REG32 "EXTMEM_ICACHE_CTRL" (0x000 + 0x060)
  [FIELD "EXTMEM_ICACHE_CTRL" "ENABLE" 0 1]

/-- Source: `REG32(EXTMEM_ICACHE_CTRL1, 0x004 + 0x060)` with its `FIELD` lines. -/
def EXTMEM_ICACHE_CTRL1 : Reg32 :=
  REG32 "EXTMEM_ICACHE_CTRL1" (0x004 + 0x060)
  [FIELD "EXTMEM_ICACHE_CTRL1" "SHUT_DBUS" 1 1,
   FIELD "EXTMEM_ICACHE_CTRL1" "SHUT_IBUS" 0 1]

/-- Source: `REG32(EXTMEM_ICACHE_TAG_POWER_CTRL, 0x008 + 0x060)` with its `FIELD` lines. -/
def EXTMEM_ICACHE_TAG_POWER_CTRL : Reg32 :=
  REG32 "EXTMEM_ICACHE_TAG_POWER_CTRL" (0x008 + 0x060)
  [FIELD "EXTMEM_ICACHE_TAG_POWER_CTRL" "TAG_MEM_FORCE_PU" 2 1,
   FIELD "EXTMEM_ICACHE_TAG_POWER_CTRL" "TAG_MEM_FORCE_PD" 1 1,
   FIELD "EXTMEM_ICACHE_TAG_POWER_CTRL" "TAG_MEM_FORCE_ON" 0 1]

/-- Source: `REG32(EXTMEM_ICACHE_PRELOCK_CTRL, 0x00C + 0x060)` with its `FIELD` lines. -/
def EXTMEM_ICACHE_PRELOCK_CTRL : Reg32 :=
  REG32 "EXTMEM_ICACHE_PRELOCK_CTRL" (0x00C + 0x060)
  [FIELD "EXTMEM_ICACHE_PRELOCK_CTRL" "PRELOCK_SCT1_EN" 1 1,
   FIELD "EXTMEM_ICACHE_PRELOCK_CTRL" "PRELOCK_SCT0_EN" 0 1]

/-- Source: `REG32(EXTMEM_ICACHE_PRELOCK_SCT0_ADDR, 0x70)` with its `FIELD` lines. -/
def EXTMEM_ICACHE_PRELOCK_SCT0_ADDR : Reg32 :=
  REG32 "EXTMEM_ICACHE_PRELOCK_SCT0_ADDR" (0x70)
  [FIELD "EXTMEM_ICACHE_PRELOCK_SCT0_ADDR" "PRELOCK_SCT0_ADDR" 0 32]

/-- Source: `REG32(EXTMEM_ICACHE_PRELOCK_SCT1_ADDR, 0x074)` with its `FIELD` lines. -/
def EXTMEM_ICACHE_PRELOCK_SCT1_ADDR : Reg32 :=
  REG32 "EXTMEM_ICACHE_PRELOCK_SCT1_ADDR" (0x074)
  [FIELD "EXTMEM_ICACHE_PRELOCK_SCT1_ADDR" "PRELOCK_SCT1_ADDR" 0 32]

/-- Source: `REG32(EXTMEM_ICACHE_PRELOCK_SCT_SIZE, 0x078)` with its `FIELD` lines. -/
def EXTMEM_ICACHE_PRELOCK_SCT_SIZE : Reg32 :=
  REG32 "EXTMEM_ICACHE_PRELOCK_SCT_SIZE" (0x078)
  [FIELD "EXTMEM_ICACHE_PRELOCK_SCT_SIZE" "PRELOCK_SCT0_SIZE" 16 16,
   FIELD "EXTMEM_ICACHE_PRELOCK_SCT_SIZE" "PRELOCK_SCT1_SIZE" 0 16]

/-- Source: `REG32(EXTMEM_ICACHE_LOCK_CTRL, 0x07C)` with its `FIELD` lines. -/
def EXTMEM_ICACHE_LOCK_CTRL : Reg32 :=
  REG32 "EXTMEM_ICACHE_LOCK_CTRL" (0x07C)
  [FIELD "EXTMEM_ICACHE_LOCK_CTRL" "LOCK_DONE" 2 1,
   FIELD "EXTMEM_ICACHE_LOCK_CTRL" "UNLOCK_ENA" 1 1,
   FIELD "EXTMEM_ICACHE_LOCK_CTRL" "LOCK_ENA" 0 1]

/-- Source: `REG32(EXTMEM_ICACHE_LOCK_ADDR, 0x080)` with its `FIELD` lines. -/
def EXTMEM_ICACHE_LOCK_ADDR : Reg32 :=
  REG32 "EXTMEM_ICACHE_LOCK_ADDR" (0x080)
  [FIELD "EXTMEM_ICACHE_LOCK_ADDR" "LOCK_ADDR" 0 32]

/-- Source: `REG32(EXTMEM_ICACHE_LOCK_SIZE, 0x084)` with its `FIELD` lines. -/
def EXTMEM_ICACHE_LOCK_SIZE : Reg32 :=
  REG32 "EXTMEM_ICACHE_LOCK_SIZE" (0x084)
  [FIELD "EXTMEM_ICACHE_LOCK_SIZE" "LOCK_SIZE" 0 16]

/-- Source: `REG32(EXTMEM_ICACHE_SYNC_CTRL, 0x88)` with its `FIELD` lines. -/
def EXTMEM_ICACHE_SYNC_CTRL : Reg32 :=
  REG32 "EXTMEM_ICACHE_SYNC_CTRL" (0x88)
  [FIELD "EXTMEM_ICACHE_SYNC_CTRL" "SYNC_DONE" 1 1,
   FIELD "EXTMEM_ICACHE_SYNC_CTRL" "INVALIDATE_ENA" 0 1]

/-- Source: `REG32(EXTMEM_ICACHE_SYNC_ADDR, 0x6C)` with its `FIELD` lines. -/
def EXTMEM_ICACHE_SYNC_ADDR : Reg32 :=
  REG32 "EXTMEM_ICACHE_SYNC_ADDR" (0x6C)
  [FIELD "EXTMEM_ICACHE_SYNC_ADDR" "SYNC_ADDR" 0 32]

/-- Source: `REG32(EXTMEM_ICACHE_SYNC_SIZE, 0x090)` with its `FIELD` lines. -/
def EXTMEM_ICACHE_SYNC_SIZE : Reg32 :=
  REG32 "EXTMEM_ICACHE_SYNC_SIZE" (0x090)
  [FIELD "EXTMEM_ICACHE_SYNC_SIZE" "SYNC_SIZE" 0 23]

/-- Source: `REG32(EXTMEM_ICACHE_PRELOAD_CTRL, 0x094)` with its `FIELD` lines. -/
def EXTMEM_ICACHE_PRELOAD_CTRL : Reg32 :=
  REG32 "EXTMEM_ICACHE_PRELOAD_CTRL" (0x094)
  [FIELD "EXTMEM_ICACHE_PRELOAD_CTRL" "PRELOAD_ORDER" 2 1,
   FIELD "EXTMEM_ICACHE_PRELOAD_CTRL" "PRELOAD_DONE" 1 1,
   FIELD "EXTMEM_ICACHE_PRELOAD_CTRL" "PRELOAD_ENA" 0 1]

/-- Source: `REG32(EXTMEM_ICACHE_PRELOAD_ADDR, 0x98)` with its `FIELD` lines. -/
def EXTMEM_ICACHE_PRELOAD_ADDR : Reg32 :=
  REG32 "EXTMEM_ICACHE_PRELOAD_ADDR" (0x98)
  [FIELD "EXTMEM_ICACHE_PRELOAD_ADDR" "PRELOAD_ADDR" 0 32]

/-- Source: `REG32(EXTMEM_ICACHE_PRELOAD_SIZE, 0x9C)` with its `FIELD` lines. -/
def EXTMEM_ICACHE_PRELOAD_SIZE : Reg32 :=
  REG32 "EXTMEM_ICACHE_PRELOAD_SIZE" (0x9C)
  [FIELD "EXTMEM_ICACHE_PRELOAD_SIZE" "PRELOAD_SIZE" 0 16]

/-- Source: `REG32(EXTMEM_ICACHE_AUTOLOAD_CTRL, 0x0A0)` with its `FIELD` lines. -/
def EXTMEM_ICACHE_AUTOLOAD_CTRL : Reg32 :=
  REG32 "EXTMEM_ICACHE_AUTOLOAD_CTRL" (0x0A0)
  [FIELD "EXTMEM_ICACHE_AUTOLOAD_CTRL" "AUTOLOAD_RQST" 5 2,
   FIELD "EXTMEM_ICACHE_AUTOLOAD_CTRL" "AUTOLOAD_ORDER" 4 1,
   FIELD "EXTMEM_ICACHE_AUTOLOAD_CTRL" "AUTOLOAD_DONE" 3 1,
   FIELD "EXTMEM_ICACHE_AUTOLOAD_CTRL" "AUTOLOAD_ENA" 2 1,
   FIELD "EXTMEM_ICACHE_AUTOLOAD_CTRL" "AUTOLOAD_SCT1_ENA" 1 1,
   FIELD "EXTMEM_ICACHE_AUTOLOAD_CTRL" "AUTOLOAD_SCT0_ENA" 0 1]

/-- Source: `REG32(EXTMEM_ICACHE_AUTOLOAD_SCT0_ADDR, 0x0A4)` with its `FIELD` lines. -/
def EXTMEM_ICACHE_AUTOLOAD_SCT0_ADDR : Reg32 :=
  REG32 "EXTMEM_ICACHE_AUTOLOAD_SCT0_ADDR" (0x0A4)
  [FIELD "EXTMEM_ICACHE_AUTOLOAD_SCT0_ADDR" "AUTOLOAD_SCT0_ADDR" 0 32]

/-- Source: `REG32(EXTMEM_ICACHE_AUTOLOAD_SCT0_SIZE, 0x0A8)` with its `FIELD` lines. -/
def EXTMEM_ICACHE_AUTOLOAD_SCT0_SIZE : Reg32 :=
  REG32 "EXTMEM_ICACHE_AUTOLOAD_SCT0_SIZE" (0x0A8)
  [FIELD "EXTMEM_ICACHE_AUTOLOAD_SCT0_SIZE" "AUTOLOAD_SCT0_SIZE" 0 27]

/-- Source: `REG32(EXTMEM_ICACHE_AUTOLOAD_SCT1_ADDR, 0x0AC)` with its `FIELD` lines. -/
def EXTMEM_ICACHE_AUTOLOAD_SCT1_ADDR : Reg32 :=
  REG32 "EXTMEM_ICACHE_AUTOLOAD_SCT1_ADDR" (0x0AC)
  [FIELD "EXTMEM_ICACHE_AUTOLOAD_SCT1_ADDR" "AUTOLOAD_SCT1_ADDR" 0 32]

/-- Source: `REG32(EXTMEM_ICACHE_AUTOLOAD_SCT1_SIZE, 0x0B0)` with its `FIELD` lines. -/
def EXTMEM_ICACHE_AUTOLOAD_SCT1_SIZE : Reg32 :=
  REG32 "EXTMEM_ICACHE_AUTOLOAD_SCT1_SIZE" (0x0B0)
  [FIELD "EXTMEM_ICACHE_AUTOLOAD_SCT1_SIZE" "AUTOLOAD_SCT1_SIZE" 0 27]

/-- Source: `REG32(EXTMEM_IBUS_TO_FLASH_START_VADDR, 0x0B4)` with its `FIELD` lines. -/
def EXTMEM_IBUS_TO_FLASH_START_VADDR : Reg32 :=
  REG32 "EXTMEM_IBUS_TO_FLASH_START_VADDR" (0x0B4)
  [FIELD "EXTMEM_IBUS_TO_FLASH_START_VADDR" "IBUS_TO_FLASH_START_VADDR" 0 32]

/-- Source: `REG32(EXTMEM_IBUS_TO_FLASH_END_VADDR, 0x0B8)` with its `FIELD` lines. -/
def EXTMEM_IBUS_TO_FLASH_END_VADDR : Reg32 :=
  REG32 "EXTMEM_IBUS_TO_FLASH_END_VADDR" (0x0B8)
  [FIELD "EXTMEM_IBUS_TO_FLASH_END_VADDR" "IBUS_TO_FLASH_END_VADDR" 0 32]

/-- Source: `REG32(EXTMEM_DBUS_TO_FLASH_START_VADDR, 0x0BC)` with its `FIELD` lines. -/
def EXTMEM_DBUS_TO_FLASH_START_VADDR : Reg32 :=
  REG32 "EXTMEM_DBUS_TO_FLASH_START_VADDR" (0x0BC)
  [FIELD "EXTMEM_DBUS_TO_FLASH_START_VADDR" "DBUS_TO_FLASH_START_VADDR" 0 32]

/-- Source: `REG32(EXTMEM_DBUS_TO_FLASH_END_VADDR, 0x0C0)` with its `FIELD` lines. -/
def EXTMEM_DBUS_TO_FLASH_END_VADDR : Reg32 :=
  REG32 "EXTMEM_DBUS_TO_FLASH_END_VADDR" (0x0C0)
  [FIELD "EXTMEM_DBUS_TO_FLASH_END_VADDR" "DBUS_TO_FLASH_END_VADDR" 0 32]

/-- Source: `REG32(EXTMEM_CACHE_ACS_CNT_CLR, 0x0C4)` with its `FIELD` lines. -/
def EXTMEM_CACHE_ACS_CNT_CLR : Reg32 :=
  REG32 "EXTMEM_CACHE_ACS_CNT_CLR" (0x0C4)
  [FIELD "EXTMEM_CACHE_ACS_CNT_CLR" "DBUS_ACS_CNT_CLR" 1 1,
   FIELD "EXTMEM_CACHE_ACS_CNT_CLR" "IBUS_ACS_CNT_CLR" 0 1]

/-- Source: `REG32(EXTMEM_IBUS_ACS_MISS_CNT, 0x0C8)` with its `FIELD` lines. -/
def EXTMEM_IBUS_ACS_MISS_CNT : Reg32 :=
  REG32 "EXTMEM_IBUS_ACS_MISS_CNT" (0x0C8)
  [FIELD "EXTMEM_IBUS_ACS_MISS_CNT" "IBUS_ACS_MISS_CNT" 0 32]

/-- Source: `REG32(EXTMEM_IBUS_ACS_CNT, 0x0CC)` with its `FIELD` lines. -/
def EXTMEM_IBUS_ACS_CNT : Reg32 :=
  REG32 "EXTMEM_IBUS_ACS_CNT" (0x0CC)
  [FIELD "EXTMEM_IBUS_ACS_CNT" "IBUS_ACS_CNT" 0 32]

/-- Source: `REG32(EXTMEM_DBUS_ACS_FLASH_MISS_CNT, 0x0D0)` with its `FIELD` lines. -/
def EXTMEM_DBUS_ACS_FLASH_MISS_CNT : Reg32 :=
  REG32 "EXTMEM_DBUS_ACS_FLASH_MISS_CNT" (0x0D0)
  [FIELD "EXTMEM_DBUS_ACS_FLASH_MISS_CNT" "DBUS_ACS_FLASH_MISS_CNT" 0 32]

/-- Source: `REG32(EXTMEM_DBUS_ACS_SPIRAM_MISS_CNT, 0x0D4)` with its `FIELD` lines. -/
def EXTMEM_DBUS_ACS_SPIRAM_MISS_CNT : Reg32 :=
  REG32 "EXTMEM_DBUS_ACS_SPIRAM_MISS_CNT" (0x0D4)
  [FIELD "EXTMEM_DBUS_ACS_SPIRAM_MISS_CNT" "DBUS_ACS_SPIRAM_MISS_CNT" 0 32]

/-- Source: `REG32(EXTMEM_DBUS_ACS_CNT, 0x0D8)` with its `FIELD` lines. -/
def EXTMEM_DBUS_ACS_CNT : Reg32 :=
  REG32 "EXTMEM_DBUS_ACS_CNT" (0x0D8)
  [FIELD "EXTMEM_DBUS_ACS_CNT" "DBUS_ACS_CNT" 0 32]

/-- Source: `REG32(EXTMEM_CACHE_ILG_INT_ENA, 0x0DC)` with its `FIELD` lines. -/
def EXTMEM_CACHE_ILG_INT_ENA : Reg32 :=
  REG32 "EXTMEM_CACHE_ILG_INT_ENA" (0x0DC)
  [FIELD "EXTMEM_CACHE_ILG_INT_ENA" "DBUS_CNT_OVF_INT_ENA" 8 1,
   FIELD "EXTMEM_CACHE_ILG_INT_ENA" "IBUS_CNT_OVF_INT_ENA" 7 1,
   FIELD "EXTMEM_CACHE_ILG_INT_ENA" "MMU_ENTRY_FAULT_INT_ENA" 5 1,
   FIELD "EXTMEM_CACHE_ILG_INT_ENA" "ICACHE_PRELOAD_OP_FAULT_INT_ENA" 1 1,
   FIELD "EXTMEM_CACHE_ILG_INT_ENA" "ICACHE_SYNC_OP_FAULT_INT_ENA" 0 1]

/-- Source: `REG32(EXTMEM_CACHE_ILG_INT_CLR, 0x0E0)` with its `FIELD` lines. -/
def EXTMEM_CACHE_ILG_INT_CLR : Reg32 :=
  REG32 "EXTMEM_CACHE_ILG_INT_CLR" (0x0E0)
  [FIELD "EXTMEM_CACHE_ILG_INT_CLR" "DBUS_CNT_OVF_INT_CLR" 8 1,
   FIELD "EXTMEM_CACHE_ILG_INT_CLR" "IBUS_CNT_OVF_INT_CLR" 7 1,
   FIELD "EXTMEM_CACHE_ILG_INT_CLR" "MMU_ENTRY_FAULT_INT_CLR" 5 1,
   FIELD "EXTMEM_CACHE_ILG_INT_CLR" "ICACHE_PRELOAD_OP_FAULT_INT_CLR" 1 1,
   FIELD "EXTMEM_CACHE_ILG_INT_CLR" "ICACHE_SYNC_OP_FAULT_INT_CLR" 0 1]

/-- Source: `REG32(EXTMEM_CACHE_ILG_INT_ST, 0x0E4)` with its `FIELD` lines. -/
def EXTMEM_CACHE_ILG_INT_ST : Reg32 :=
  REG32 "EXTMEM_CACHE_ILG_INT_ST" (0x0E4)
  [FIELD "EXTMEM_CACHE_ILG_INT_ST" "DBUS_ACS_FLASH_MISS_CNT_OVF_ST" 10 1,
   FIELD "EXTMEM_CACHE_ILG_INT_ST" "DBUS_ACS_CNT_OVF_ST" 9 1,
   FIELD "EXTMEM_CACHE_ILG_INT_ST" "IBUS_ACS_MISS_CNT_OVF_ST" 8 1,
   FIELD "EXTMEM_CACHE_ILG_INT_ST" "IBUS_ACS_CNT_OVF_ST" 7 1,
   FIELD "EXTMEM_CACHE_ILG_INT_ST" "MMU_ENTRY_FAULT_ST" 5 1,
   FIELD "EXTMEM_CACHE_ILG_INT_ST" "ICACHE_PRELOAD_OP_FAULT_ST" 1 1,
   FIELD "EXTMEM_CACHE_ILG_INT_ST" "ICACHE_SYNC_OP_FAULT_ST" 0 1]

/-- Source: `REG32(EXTMEM_CORE0_ACS_CACHE_INT_ENA, 0x0E8)` with its `FIELD` lines. -/
def EXTMEM_CORE0_ACS_CACHE_INT_ENA : Reg32 :=
  REG32 "EXTMEM_CORE0_ACS_CACHE_INT_ENA" (0x0E8)
  [FIELD "EXTMEM_CORE0_ACS_CACHE_INT_ENA" "CORE0_DBUS_WR_IC_INT_ENA" 5 1,
   FIELD "EXTMEM_CORE0_ACS_CACHE_INT_ENA" "CORE0_DBUS_REJECT_INT_ENA" 4 1,
   FIELD "EXTMEM_CORE0_ACS_CACHE_INT_ENA" "CORE0_DBUS_ACS_MSK_IC_INT_ENA" 3 1,
   FIELD "EXTMEM_CORE0_ACS_CACHE_INT_ENA" "CORE0_IBUS_REJECT_INT_ENA" 2 1,
   FIELD "EXTMEM_CORE0_ACS_CACHE_INT_ENA" "CORE0_IBUS_WR_IC_INT_ENA" 1 1,
   FIELD "EXTMEM_CORE0_ACS_CACHE_INT_ENA" "CORE0_IBUS_ACS_MSK_IC_INT_ENA" 0 1]

/-- Source: `REG32(EXTMEM_CORE0_ACS_CACHE_INT_CLR, 0x0EC)` with its `FIELD` lines. -/
def EXTMEM_CORE0_ACS_CACHE_INT_CLR : Reg32 :=
  REG32 "EXTMEM_CORE0_ACS_CACHE_INT_CLR" (0x0EC)
  [FIELD "EXTMEM_CORE0_ACS_CACHE_INT_CLR" "CORE0_DBUS_WR_IC_INT_CLR" 5 1,
   FIELD "EXTMEM_CORE0_ACS_CACHE_INT_CLR" "CORE0_DBUS_REJECT_INT_CLR" 4 1,
   FIELD "EXTMEM_CORE0_ACS_CACHE_INT_CLR" "CORE0_DBUS_ACS_MSK_IC_INT_CLR" 3 1,
   FIELD "EXTMEM_CORE0_ACS_CACHE_INT_CLR" "CORE0_IBUS_REJECT_INT_CLR" 2 1,
   FIELD "EXTMEM_CORE0_ACS_CACHE_INT_CLR" "CORE0_IBUS_WR_IC_INT_CLR" 1 1,
   FIELD "EXTMEM_CORE0_ACS_CACHE_INT_CLR" "CORE0_IBUS_ACS_MSK_IC_INT_CLR" 0 1]

/-- Source: `REG32(EXTMEM_CORE0_ACS_CACHE_INT_ST, 0x0F0)` with its `FIELD` lines. -/
def EXTMEM_CORE0_ACS_CACHE_INT_ST : Reg32 :=
  REG32 "EXTMEM_CORE0_ACS_CACHE_INT_ST" (0x0F0)
  [FIELD "EXTMEM_CORE0_ACS_CACHE_INT_ST" "CORE0_DBUS_WR_ICACHE_ST" 5 1,
   FIELD "EXTMEM_CORE0_ACS_CACHE_INT_ST" "CORE0_DBUS_REJECT_ST" 4 1,
   FIELD "EXTMEM_CORE0_ACS_CACHE_INT_ST" "CORE0_DBUS_ACS_MSK_ICACHE_ST" 3 1,
   FIELD "EXTMEM_CORE0_ACS_CACHE_INT_ST" "CORE0_IBUS_REJECT_ST" 2 1,
   FIELD "EXTMEM_CORE0_ACS_CACHE_INT_ST" "CORE0_IBUS_WR_ICACHE_ST" 1 1,
   FIELD "EXTMEM_CORE0_ACS_CACHE_INT_ST" "CORE0_IBUS_ACS_MSK_ICACHE_ST" 0 1]

/-- Source: `REG32(EXTMEM_CORE1_ACS_CACHE_INT_ENA, 0x0F4)` with its `FIELD` lines. -/
def EXTMEM_CORE1_ACS_CACHE_INT_ENA : Reg32 :=
  REG32 "EXTMEM_CORE1_ACS_CACHE_INT_ENA" (0x0F4)
  [FIELD "EXTMEM_CORE1_ACS_CACHE_INT_ENA" "CORE1_DBUS_WR_ICACHE_ST" 5 1,
   FIELD "EXTMEM_CORE1_ACS_CACHE_INT_ENA" "CORE1_DBUS_REJECT_ST" 4 1,
   FIELD "EXTMEM_CORE1_ACS_CACHE_INT_ENA" "CORE1_DBUS_ACS_MSK_ICACHE_ST" 3 1,
   FIELD "EXTMEM_CORE1_ACS_CACHE_INT_ENA" "CORE1_IBUS_REJECT_ST" 2 1,
   FIELD "EXTMEM_CORE1_ACS_CACHE_INT_ENA" "CORE1_IBUS_WR_ICACHE_ST" 1 1,
   FIELD "EXTMEM_CORE1_ACS_CACHE_INT_ENA" "CORE1_IBUS_ACS_MSK_ICACHE_ST" 0 1]

/-- Source: `REG32(EXTMEM_CORE1_ACS_CACHE_INT_CLR, 0x0F8)` with its `FIELD` lines. -/
def EXTMEM_CORE1_ACS_CACHE_INT_CLR : Reg32 :=
  REG32 "EXTMEM_CORE1_ACS_CACHE_INT_CLR" (0x0F8)
  [FIELD "EXTMEM_CORE1_ACS_CACHE_INT_CLR" "CORE1_DBUS_WR_IC_INT_CLR" 5 1,
   FIELD "EXTMEM_CORE1_ACS_CACHE_INT_CLR" "CORE1_DBUS_REJECT_INT_CLR" 4 1,
   FIELD "EXTMEM_CORE1_ACS_CACHE_INT_CLR" "CORE1_DBUS_ACS_MSK_IC_INT_CLR" 3 1,
   FIELD "EXTMEM_CORE1_ACS_CACHE_INT_CLR" "CORE1_IBUS_REJECT_INT_CLR" 2 1,
   FIELD "EXTMEM_CORE1_ACS_CACHE_INT_CLR" "CORE1_IBUS_WR_IC_INT_CLR" 1 1,
   FIELD "EXTMEM_CORE1_ACS_CACHE_INT_CLR" "CORE1_IBUS_ACS_MSK_IC_INT_CLR" 0 1]

/-- Source: `REG32(EXTMEM_CORE1_ACS_CACHE_INT_ST, 0x0FC)` with its `FIELD` lines. -/
def EXTMEM_CORE1_ACS_CACHE_INT_ST : Reg32 :=
  REG32 "EXTMEM_CORE1_ACS_CACHE_INT_ST" (0x0FC)
  [FIELD "EXTMEM_CORE1_ACS_CACHE_INT_ST" "CORE1_DBUS_WR_ICACHE_ST" 5 1,
   FIELD "EXTMEM_CORE1_ACS_CACHE_INT_ST" "CORE1_DBUS_REJECT_ST" 4 1,
   FIELD "EXTMEM_CORE1_ACS_CACHE_INT_ST" "CORE1_DBUS_ACS_MSK_ICACHE_ST" 3 1,
   FIELD "EXTMEM_CORE1_ACS_CACHE_INT_ST" "CORE1_IBUS_REJECT_ST" 2 1,
   FIELD "EXTMEM_CORE1_ACS_CACHE_INT_ST" "CORE1_IBUS_WR_ICACHE_ST" 1 1,
   FIELD "EXTMEM_CORE1_ACS_CACHE_INT_ST" "CORE1_IBUS_ACS_MSK_ICACHE_ST" 0 1]

/-- Source: `REG32(EXTMEM_CORE0_DBUS_REJECT_ST, 0x100)` with its `FIELD` lines. -/
def EXTMEM_CORE0_DBUS_REJECT_ST : Reg32 :=
  REG32 "EXTMEM_CORE0_DBUS_REJECT_ST" (0x100)
  [FIELD "EXTMEM_CORE0_DBUS_REJECT_ST" "CORE0_DBUS_WORLD" 3 1,
   FIELD "EXTMEM_CORE0_DBUS_REJECT_ST" "CORE0_DBUS_ATTR" 0 3]

/-- Source: `REG32(EXTMEM_CORE0_DBUS_REJECT_VADDR, 0x104)` with its `FIELD` lines. -/
def EXTMEM_CORE0_DBUS_REJECT_VADDR : Reg32 :=
  REG32 "EXTMEM_CORE0_DBUS_REJECT_VADDR" (0x104)
  [FIELD "EXTMEM_CORE0_DBUS_REJECT_VADDR" "CORE0_DBUS_VADDR" 0 32]

/-- Source: `REG32(EXTMEM_CORE0_IBUS_REJECT_ST, 0x108)` with its `FIELD` lines. -/
def EXTMEM_CORE0_IBUS_REJECT_ST : Reg32 :=
  REG32 "EXTMEM_CORE0_IBUS_REJECT_ST" (0x108)
  [FIELD "EXTMEM_CORE0_IBUS_REJECT_ST" "CORE0_IBUS_WORLD" 3 1,
   FIELD "EXTMEM_CORE0_IBUS_REJECT_ST" "CORE0_IBUS_ATTR" 0 3]

/-- Source: `REG32(EXTMEM_CORE0_IBUS_REJECT_VADDR, 0x10C)` with its `FIELD` lines. -/
def EXTMEM_CORE0_IBUS_REJECT_VADDR : Reg32 :=
  REG32 "EXTMEM_CORE0_IBUS_REJECT_VADDR" (0x10C)
  [FIELD "EXTMEM_CORE0_IBUS_REJECT_VADDR" "CORE0_IBUS_VADDR" 0 32]

/-- Source: `REG32(EXTMEM_CORE1_DBUS_REJECT_ST, 0x110)` with its `FIELD` lines. -/
def EXTMEM_CORE1_DBUS_REJECT_ST : Reg32 :=
  REG32 "EXTMEM_CORE1_DBUS_REJECT_ST" (0x110)
  [FIELD "EXTMEM_CORE1_DBUS_REJECT_ST" "CORE1_DBUS_WORLD" 3 1,
   FIELD "EXTMEM_CORE1_DBUS_REJECT_ST" "CORE1_DBUS_ATTR" 0 3]

/-- Source: `REG32(EXTMEM_CORE1_DBUS_REJECT_VADDR, 0x114)` with its `FIELD` lines. -/
def EXTMEM_CORE1_DBUS_REJECT_VADDR : Reg32 :=
  REG32 "EXTMEM_CORE1_DBUS_REJECT_VADDR" (0x114)
  [FIELD "EXTMEM_CORE1_DBUS_REJECT_VADDR" "CORE1_DBUS_VADDR" 0 32]

/-- Source: `REG32(EXTMEM_CORE1_IBUS_REJECT_ST, 0x118)` with its `FIELD` lines. -/
def EXTMEM_CORE1_IBUS_REJECT_ST : Reg32 :=
  REG32 "EXTMEM_CORE1_IBUS_REJECT_ST" (0x118)
  [FIELD "EXTMEM_CORE1_IBUS_REJECT_ST" "CORE1_IBUS_WORLD" 3 1,
   FIELD "EXTMEM_CORE1_IBUS_REJECT_ST" "CORE1_IBUS_ATTR" 0 3]

/-- Source: `REG32(EXTMEM_CORE1_IBUS_REJECT_VADDR, 0x11C)` with its `FIELD` lines. -/
def EXTMEM_CORE1_IBUS_REJECT_VADDR : Reg32 :=
  REG32 "EXTMEM_CORE1_IBUS_REJECT_VADDR" (0x11C)
  [FIELD "EXTMEM_CORE1_IBUS_REJECT_VADDR" "CORE1_IBUS_VADDR" 0 32]

/-- Source: `REG32(EXTMEM_CACHE_MMU_FAULT_CONTENT, 0x120)` with its `FIELD` lines. -/
def EXTMEM_CACHE_MMU_FAULT_CONTENT : Reg32 :=
  REG32 "EXTMEM_CACHE_MMU_FAULT_CONTENT" (0x120)
  [FIELD "EXTMEM_CACHE_MMU_FAULT_CONTENT" "CACHE_MMU_FAULT_CODE" 10 4,
   FIELD "EXTMEM_CACHE_MMU_FAULT_CONTENT" "CACHE_MMU_FAULT_CONTENT" 0 10]

/-- Source: `REG32(EXTMEM_CACHE_MMU_FAULT_VADDR, 0x124)` with its `FIELD` lines. -/
def EXTMEM_CACHE_MMU_FAULT_VADDR : Reg32 :=
  REG32 "EXTMEM_CACHE_MMU_FAULT_VADDR" (0x124)
  [FIELD "EXTMEM_CACHE_MMU_FAULT_VADDR" "CACHE_MMU_FAULT_VADDR" 0 32]

/-- Source: `REG32(EXTMEM_CACHE_WRAP_AROUND_CTRL, 0x128)` with its `FIELD` lines. -/
def EXTMEM_CACHE_WRAP_AROUND_CTRL : Reg32 :=
  REG32 "EXTMEM_CACHE_WRAP_AROUND_CTRL" (0x128)
  [FIELD "EXTMEM_CACHE_WRAP_AROUND_CTRL" "CACHE_FLASH_WRAP_AROUND" 0 1]

/-- Source: `REG32(EXTMEM_CACHE_MMU_POWER_CTRL, 0x12C)` with its `FIELD` lines. -/
def EXTMEM_CACHE_MMU_POWER_CTRL : Reg32 :=
  REG32 "EXTMEM_CACHE_MMU_POWER_CTRL" (0x12C)
  [FIELD "EXTMEM_CACHE_MMU_POWER_CTRL" "CACHE_MMU_MEM_FORCE_PU" 2 1,
   FIELD "EXTMEM_CACHE_MMU_POWER_CTRL" "CACHE_MMU_MEM_FORCE_PD" 1 1,
   FIELD "EXTMEM_CACHE_MMU_POWER_CTRL" "CACHE_MMU_MEM_FORCE_ON" 0 1]

/-- Source: `REG32(EXTMEM_CACHE_STATE, 0x130)` with its `FIELD` lines. -/
def EXTMEM_CACHE_STATE : Reg32 :=
  REG32 "EXTMEM_CACHE_STATE" (0x130)
  [FIELD "EXTMEM_CACHE_STATE" "DCACHE_STATE" 0 12,
   FIELD "EXTMEM_CACHE_STATE" "ICACHE_STATE" 12 12]

/-- Source: `REG32(EXTMEM_CACHE_ENCRYPT_DECRYPT_RECORD_DISABLE, 0x134)` with its `FIELD` lines. -/
def EXTMEM_CACHE_ENCRYPT_DECRYPT_RECORD_DISABLE : Reg32 :=
  REG32 "EXTMEM_CACHE_ENCRYPT_DECRYPT_RECORD_DISABLE" (0x134)
  [FIELD "EXTMEM_CACHE_ENCRYPT_DECRYPT_RECORD_DISABLE" "RECORD_DISABLE_G0CB_DECRYPT" 1 1,
   FIELD "EXTMEM_CACHE_ENCRYPT_DECRYPT_RECORD_DISABLE" "RECORD_DISABLE_DB_ENCRYPT" 0 1]

/-- Source: `REG32(EXTMEM_CACHE_ENCRYPT_DECRYPT_CLK_FORCE_ON, 0x138)` with its `FIELD` lines. -/
def EXTMEM_CACHE_ENCRYPT_DECRYPT_CLK_FORCE_ON : Reg32 :=
  REG32 "EXTMEM_CACHE_ENCRYPT_DECRYPT_CLK_FORCE_ON" (0x138)
  [FIELD "EXTMEM_CACHE_ENCRYPT_DECRYPT_CLK_FORCE_ON" "CLK_FORCE_ON_CRYPT" 2 1,
   FIELD "EXTMEM_CACHE_ENCRYPT_DECRYPT_CLK_FORCE_ON" "CLK_FORCE_ON_AUTO_CRYPT" 1 1,
   FIELD "EXTMEM_CACHE_ENCRYPT_DECRYPT_CLK_FORCE_ON" "CLK_FORCE_ON_MANUAL_CRYPT" 0 1]

/-- Source: `REG32(EXTMEM_CACHE_BRIDGE_ARBITER_CTRL, 0x13C)` with its `FIELD` lines. -/
def EXTMEM_CACHE_BRIDGE_ARBITER_CTRL : Reg32 :=
  REG32 "EXTMEM_CACHE_BRIDGE_ARBITER_CTRL" (0x13C)
  [FIELD "EXTMEM_CACHE_BRIDGE_ARBITER_CTRL" "ALLOC_WB_HOLD_ARBITER" 0 1]

/-- Source: `REG32(EXTMEM_CACHE_PRELOAD_INT_CTRL, 0x140)` with its `FIELD` lines. -/
def EXTMEM_CACHE_PRELOAD_INT_CTRL : Reg32 :=
  REG32 "EXTMEM_CACHE_PRELOAD_INT_CTRL" (0x140)
  [FIELD "EXTMEM_CACHE_PRELOAD_INT_CTRL" "ICACHE_PRELOAD_INT_CLR" 2 1,
   FIELD "EXTMEM_CACHE_PRELOAD_INT_CTRL" "ICACHE_PRELOAD_INT_ENA" 1 1,
   FIELD "EXTMEM_CACHE_PRELOAD_INT_CTRL" "ICACHE_PRELOAD_INT_ST" 0 1]

/-- Source: `REG32(EXTMEM_CACHE_SYNC_INT_CTRL, 0x144)` with its `FIELD` lines. -/
def EXTMEM_CACHE_SYNC_INT_CTRL : Reg32 :=
  REG32 "EXTMEM_CACHE_SYNC_INT_CTRL" (0x144)
  [FIELD "EXTMEM_CACHE_SYNC_INT_CTRL" "ICACHE_SYNC_INT_CLR" 2 1,
   FIELD "EXTMEM_CACHE_SYNC_INT_CTRL" "ICACHE_SYNC_INT_ENA" 1 1,
   FIELD "EXTMEM_CACHE_SYNC_INT_CTRL" "ICACHE_SYNC_INT_ST" 0 1]

/-- Source: `REG32(EXTMEM_CACHE_MMU_OWNER, 0x148)` with its `FIELD` lines. -/
def EXTMEM_CACHE_MMU_OWNER : Reg32 :=
  REG32 "EXTMEM_CACHE_MMU_OWNER" (0x148)
  [FIELD "EXTMEM_CACHE_MMU_OWNER" "CACHE_MMU_OWNER" 0 4]

/-- Source: `REG32(EXTMEM_CACHE_CONF_MISC, 0x14C)` with its `FIELD` lines. -/
def EXTMEM_CACHE_CONF_MISC : Reg32 :=
  REG32 "EXTMEM_CACHE_CONF_MISC" (0x14C)
  [FIELD "EXTMEM_CACHE_CONF_MISC" "CACHE_TRACE_ENA" 2 1,
   FIELD "EXTMEM_CACHE_CONF_MISC" "CACHE_IGNORE_SYNC_MMU_ENTRY_FAULT" 1 1,
   FIELD "EXTMEM_CACHE_CONF_MISC" "CACHE_IGNORE_PRELOAD_MMU_ENTRY_FAULT" 0 1]

/-- Source: `REG32(EXTMEM_DCACHE_FREEZE, 0x150)` with its `FIELD` lines. -/
def EXTMEM_DCACHE_FREEZE : Reg32 :=
  REG32 "EXTMEM_DCACHE_FREEZE" (0x150)
  [FIELD "EXTMEM_DCACHE_FREEZE" "DCACHE_FREEZE_DONE" 2 1,
   FIELD "EXTMEM_DCACHE_FREEZE" "DCACHE_FREEZE_MODE" 1 1,
   FIELD "EXTMEM_DCACHE_FREEZE" "DCACHE_FREEZE_ENA" 0 1]

/-- Source: `REG32(EXTMEM_ICACHE_FREEZE, 0x154)` with its `FIELD` lines. -/
def EXTMEM_ICACHE_FREEZE : Reg32 :=
  REG32 "EXTMEM_ICACHE_FREEZE" (0x154)
  [FIELD "EXTMEM_ICACHE_FREEZE" "ICACHE_FREEZE_DONE" 2 1,
   FIELD "EXTMEM_ICACHE_FREEZE" "ICACHE_FREEZE_MODE" 1 1,
   FIELD "EXTMEM_ICACHE_FREEZE" "ICACHE_FREEZE_ENA" 0 1]

/-- Source: `REG32(EXTMEM_ICACHE_ATOMIC_OPERATE_ENA, 0x158)` with its `FIELD` lines. -/
def EXTMEM_ICACHE_ATOMIC_OPERATE_ENA : Reg32 :=
  REG32 "EXTMEM_ICACHE_ATOMIC_OPERATE_ENA" (0x158)
  [FIELD "EXTMEM_ICACHE_ATOMIC_OPERATE_ENA" "ICACHE_ATOMIC_OPERATE_ENA" 0 1]

/-- Source: `REG32(EXTMEM_DCACHE_ATOMIC_OPERATE_ENA, 0x15C)` with its `FIELD` lines. -/
def EXTMEM_DCACHE_ATOMIC_OPERATE_ENA : Reg32 :=
  REG32 "EXTMEM_DCACHE_ATOMIC_OPERATE_ENA" (0x15C)
  [FIELD "EXTMEM_DCACHE_ATOMIC_OPERATE_ENA" "DCACHE_ATOMIC_OPERATE_ENA" 0 1]

/-- Source: `REG32(EXTMEM_CACHE_REQUEST, 0x160)` with its `FIELD` lines. -/
def EXTMEM_CACHE_REQUEST : Reg32 :=
  REG32 "EXTMEM_CACHE_REQUEST" (0x160)
  [FIELD "EXTMEM_CACHE_REQUEST" "CACHE_REQUEST_BYPASS" 0 1]

/-- Source: `REG32(EXTMEM_IBUS_PMS_TBL_LOCK, 0x0D8 + 0x060)` with its `FIELD` lines. -/
def EXTMEM_IBUS_PMS_TBL_LOCK : Reg32 :=
  REG32 "EXTMEM_IBUS_PMS_TBL_LOCK" (0x0D8 + 0x060)
  [FIELD "EXTMEM_IBUS_PMS_TBL_LOCK" "IBUS_PMS_LOCK" 0 1]

/-- Source: `REG32(EXTMEM_IBUS_PMS_TBL_BOUNDARY0, 0x0DC + 0x060)` with its `FIELD` lines. -/
def EXTMEM_IBUS_PMS_TBL_BOUNDARY0 : Reg32 :=
  REG32 "EXTMEM_IBUS_PMS_TBL_BOUNDARY0" (0x0DC + 0x060)
  [FIELD "EXTMEM_IBUS_PMS_TBL_BOUNDARY0" "IBUS_PMS_BOUNDARY0" 0 12]

/-- Source: `REG32(EXTMEM_IBUS_PMS_TBL_BOUNDARY1, 0x0E0 + 0x060)` with its `FIELD` lines. -/
def EXTMEM_IBUS_PMS_TBL_BOUNDARY1 : Reg32 :=
  REG32 "EXTMEM_IBUS_PMS_TBL_BOUNDARY1" (0x0E0 + 0x060)
  [FIELD "EXTMEM_IBUS_PMS_TBL_BOUNDARY1" "IBUS_PMS_BOUNDARY1" 0 12]

/-- Source: `REG32(EXTMEM_IBUS_PMS_TBL_BOUNDARY2, 0x0E4 + 0x060)` with its `FIELD` lines. -/
def EXTMEM_IBUS_PMS_TBL_BOUNDARY2 : Reg32 :=
  REG32 "EXTMEM_IBUS_PMS_TBL_BOUNDARY2" (0x0E4 + 0x060)
  [FIELD "EXTMEM_IBUS_PMS_TBL_BOUNDARY2" "IBUS_PMS_BOUNDARY2" 0 12]

/-- Source: `REG32(EXTMEM_IBUS_PMS_TBL_ATTR, 0x0E8 + 0x060)` with its `FIELD` lines. -/
def EXTMEM_IBUS_PMS_TBL_ATTR : Reg32 :=
  REG32 "EXTMEM_IBUS_PMS_TBL_ATTR" (0x0E8 + 0x060)
  [FIELD "EXTMEM_IBUS_PMS_TBL_ATTR" "IBUS_PMS_SCT2_ATTR" 4 4,
   FIELD "EXTMEM_IBUS_PMS_TBL_ATTR" "IBUS_PMS_SCT1_ATTR" 0 4]

/-- Source: `REG32(EXTMEM_DBUS_PMS_TBL_LOCK, 0x0EC + 0x060)` with its `FIELD` lines. -/
def EXTMEM_DBUS_PMS_TBL_LOCK : Reg32 :=
  REG32 "EXTMEM_DBUS_PMS_TBL_LOCK" (0x0EC + 0x060)
  [FIELD "EXTMEM_DBUS_PMS_TBL_LOCK" "DBUS_PMS_LOCK" 0 1]

/-- Source: `REG32(EXTMEM_DBUS_PMS_TBL_BOUNDARY0, 0x0F0 + 0x060)` with its `FIELD` lines. -/
def EXTMEM_DBUS_PMS_TBL_BOUNDARY0 : Reg32 :=
  REG32 "EXTMEM_DBUS_PMS_TBL_BOUNDARY0" (0x0F0 + 0x060)
  [FIELD "EXTMEM_DBUS_PMS_TBL_BOUNDARY0" "DBUS_PMS_BOUNDARY0" 0 12]

/-- Source: `REG32(EXTMEM_DBUS_PMS_TBL_BOUNDARY1, 0x0F4 + 0x060)` with its `FIELD` lines. -/
def EXTMEM_DBUS_PMS_TBL_BOUNDARY1 : Reg32 :=
  REG32 "EXTMEM_DBUS_PMS_TBL_BOUNDARY1" (0x0F4 + 0x060)
  [FIELD "EXTMEM_DBUS_PMS_TBL_BOUNDARY1" "DBUS_PMS_BOUNDARY1" 0 12]

/-- Source: `REG32(EXTMEM_DBUS_PMS_TBL_BOUNDARY2, 0x0F8 + 0x060)` with its `FIELD` lines. -/
def EXTMEM_DBUS_PMS_TBL_BOUNDARY2 : Reg32 :=
  REG32 "EXTMEM_DBUS_PMS_TBL_BOUNDARY2" (0x0F8 + 0x060)
  [FIELD "EXTMEM_DBUS_PMS_TBL_BOUNDARY2" "DBUS_PMS_BOUNDARY2" 0 12]

/-- Source: `REG32(EXTMEM_DBUS_PMS_TBL_ATTR, 0x0FC + 0x060)` with its `FIELD` lines. -/
def EXTMEM_DBUS_PMS_TBL_ATTR : Reg32 :=
  REG32 "EXTMEM_DBUS_PMS_TBL_ATTR" (0x0FC + 0x060)
  [FIELD "EXTMEM_DBUS_PMS_TBL_ATTR" "DBUS_PMS_SCT2_ATTR" 2 2,
   FIELD "EXTMEM_DBUS_PMS_TBL_ATTR" "DBUS_PMS_SCT1_ATTR" 0 2]

/-- Source: `REG32(EXTMEM_CLOCK_GATE, 0x164)` with its `FIELD` lines. -/
def EXTMEM_CLOCK_GATE : Reg32 :=
  REG32 "EXTMEM_CLOCK_GATE" (0x164)
  [FIELD "EXTMEM_CLOCK_GATE" "CLK_EN" 0 1]

/-- Source: `REG32(EXTMEM_DATE, 0x3FC)` with its `FIELD` lines. -/
def EXTMEM_DATE : Reg32 :=
  REG32 "EXTMEM_DATE" (0x3FC)
  [FIELD "EXTMEM_DATE" "DATE" 0 28]

/-- Every register of the header, in declaration order. -/
def register_map : List Reg32 :=
  [EXTMEM_DCACHE_CTRL,
   EXTMEM_DCACHE_CTRL1,
   EXTMEM_DCACHE_TAG_POWER_CTRL,
   EXTMEM_DCACHE_PRELOCK_CTRL,
   EXTMEM_DCACHE_PRELOCK_SCT0_ADDR,
   EXTMEM_DCACHE_PRELOCK_SCT1_ADDR,
   EXTMEM_DCACHE_PRELOCK_SCT_SIZE,
   EXTMEM_DCACHE_LOCK_CTRL,
   EXTMEM_DCACHE_LOCK_ADDR,
   EXTMEM_DCACHE_LOCK_SIZE,
   EXTMEM_DCACHE_SYNC_CTRL,
   EXTMEM_DCACHE_SYNC_ADDR,
   EXTMEM_DCACHE_SYNC_SIZE,
   EXTMEM_DCACHE_PRELOAD_CTRL,
   EXTMEM_DCACHE_AUTOLOAD_CTRL,
   EXTMEM_ICACHE_CTRL,
   EXTMEM_ICACHE_CTRL1,
   EXTMEM_ICACHE_TAG_POWER_CTRL,
   EXTMEM_ICACHE_PRELOCK_CTRL,
   EXTMEM_ICACHE_PRELOCK_SCT0_ADDR,
   EXTMEM_ICACHE_PRELOCK_SCT1_ADDR,
   EXTMEM_ICACHE_PRELOCK_SCT_SIZE,
   EXTMEM_ICACHE_LOCK_CTRL,
   EXTMEM_ICACHE_LOCK_ADDR,
   EXTMEM_ICACHE_LOCK_SIZE,
   EXTMEM_ICACHE_SYNC_CTRL,
   EXTMEM_ICACHE_SYNC_ADDR,
   EXTMEM_ICACHE_SYNC_SIZE,
   EXTMEM_ICACHE_PRELOAD_CTRL,
   EXTMEM_ICACHE_PRELOAD_ADDR,
   EXTMEM_ICACHE_PRELOAD_SIZE,
   EXTMEM_ICACHE_AUTOLOAD_CTRL,
   EXTMEM_ICACHE_AUTOLOAD_SCT0_ADDR,
   EXTMEM_ICACHE_AUTOLOAD_SCT0_SIZE,
   EXTMEM_ICACHE_AUTOLOAD_SCT1_ADDR,
   EXTMEM_ICACHE_AUTOLOAD_SCT1_SIZE,
   EXTMEM_IBUS_TO_FLASH_START_VADDR,
   EXTMEM_IBUS_TO_FLASH_END_VADDR,
   EXTMEM_DBUS_TO_FLASH_START_VADDR,
   EXTMEM_DBUS_TO_FLASH_END_VADDR,
   EXTMEM_CACHE_ACS_CNT_CLR,
   EXTMEM_IBUS_ACS_MISS_CNT,
   EXTMEM_IBUS_ACS_CNT,
   EXTMEM_DBUS_ACS_FLASH_MISS_CNT,
   EXTMEM_DBUS_ACS_SPIRAM_MISS_CNT,
   EXTMEM_DBUS_ACS_CNT,
   EXTMEM_CACHE_ILG_INT_ENA,
   EXTMEM_CACHE_ILG_INT_CLR,
   EXTMEM_CACHE_ILG_INT_ST,
   EXTMEM_CORE0_ACS_CACHE_INT_ENA,
   EXTMEM_CORE0_ACS_CACHE_INT_CLR,
   EXTMEM_CORE0_ACS_CACHE_INT_ST,
   EXTMEM_CORE1_ACS_CACHE_INT_ENA,
   EXTMEM_CORE1_ACS_CACHE_INT_CLR,
   EXTMEM_CORE1_ACS_CACHE_INT_ST,
   EXTMEM_CORE0_DBUS_REJECT_ST,
   EXTMEM_CORE0_DBUS_REJECT_VADDR,
   EXTMEM_CORE0_IBUS_REJECT_ST,
   EXTMEM_CORE0_IBUS_REJECT_VADDR,
   EXTMEM_CORE1_DBUS_REJECT_ST,
   EXTMEM_CORE1_DBUS_REJECT_VADDR,
   EXTMEM_CORE1_IBUS_REJECT_ST,
   EXTMEM_CORE1_IBUS_REJECT_VADDR,
   EXTMEM_CACHE_MMU_FAULT_CONTENT,
   EXTMEM_CACHE_MMU_FAULT_VADDR,
   EXTMEM_CACHE_WRAP_AROUND_CTRL,
   EXTMEM_CACHE_MMU_POWER_CTRL,
   EXTMEM_CACHE_STATE,
   EXTMEM_CACHE_ENCRYPT_DECRYPT_RECORD_DISABLE,
   EXTMEM_CACHE_ENCRYPT_DECRYPT_CLK_FORCE_ON,
   EXTMEM_CACHE_BRIDGE_ARBITER_CTRL,
   EXTMEM_CACHE_PRELOAD_INT_CTRL,
   EXTMEM_CACHE_SYNC_INT_CTRL,
   EXTMEM_CACHE_MMU_OWNER,
   EXTMEM_CACHE_CONF_MISC,
   EXTMEM_DCACHE_FREEZE,
   EXTMEM_ICACHE_FREEZE,
   EXTMEM_ICACHE_ATOMIC_OPERATE_ENA,
   EXTMEM_DCACHE_ATOMIC_OPERATE_ENA,
   EXTMEM_CACHE_REQUEST,
   EXTMEM_IBUS_PMS_TBL_LOCK,
   EXTMEM_IBUS_PMS_TBL_BOUNDARY0,
   EXTMEM_IBUS_PMS_TBL_BOUNDARY1,
   EXTMEM_IBUS_PMS_TBL_BOUNDARY2,
   EXTMEM_IBUS_PMS_TBL_ATTR,
   EXTMEM_DBUS_PMS_TBL_LOCK,
   EXTMEM_DBUS_PMS_TBL_BOUNDARY0,
   EXTMEM_DBUS_PMS_TBL_BOUNDARY1,
   EXTMEM_DBUS_PMS_TBL_BOUNDARY2,
   EXTMEM_DBUS_PMS_TBL_ATTR,
   EXTMEM_CLOCK_GATE,
   EXTMEM_DATE]

/-! ## The two control blocks and their pairing by name -/

/-- The data-cache control block: the registers declared with
`REG32(EXTMEM_DCACHE_...)` before the `// -----` separator. -/
def dcache_block : List Reg32 :=
  [EXTMEM_DCACHE_CTRL,
   EXTMEM_DCACHE_CTRL1,
   EXTMEM_DCACHE_TAG_POWER_CTRL,
   EXTMEM_DCACHE_PRELOCK_CTRL,
   EXTMEM_DCACHE_PRELOCK_SCT0_ADDR,
   EXTMEM_DCACHE_PRELOCK_SCT1_ADDR,
   EXTMEM_DCACHE_PRELOCK_SCT_SIZE,
   EXTMEM_DCACHE_LOCK_CTRL,
   EXTMEM_DCACHE_LOCK_ADDR,
   EXTMEM_DCACHE_LOCK_SIZE,
   EXTMEM_DCACHE_SYNC_CTRL,
   EXTMEM_DCACHE_SYNC_ADDR,
   EXTMEM_DCACHE_SYNC_SIZE,
   EXTMEM_DCACHE_PRELOAD_CTRL,
   EXTMEM_DCACHE_AUTOLOAD_CTRL]

/-- The instruction-cache control block: the registers declared with
`REG32(EXTMEM_ICACHE_...)` after the separator, from `EXTMEM_ICACHE_CTRL`
to `EXTMEM_ICACHE_AUTOLOAD_CTRL`. -/
def icache_block : List Reg32 :=
  [EXTMEM_ICACHE_CTRL,
   EXTMEM_ICACHE_CTRL1,
   EXTMEM_ICACHE_TAG_POWER_CTRL,
   EXTMEM_ICACHE_PRELOCK_CTRL,
   EXTMEM_ICACHE_PRELOCK_SCT0_ADDR,
   EXTMEM_ICACHE_PRELOCK_SCT1_ADDR,
   EXTMEM_ICACHE_PRELOCK_SCT_SIZE,
   EXTMEM_ICACHE_LOCK_CTRL,
   EXTMEM_ICACHE_LOCK_ADDR,
   EXTMEM_ICACHE_LOCK_SIZE,
   EXTMEM_ICACHE_SYNC_CTRL,
   EXTMEM_ICACHE_SYNC_ADDR,
   EXTMEM_ICACHE_SYNC_SIZE,
   EXTMEM_ICACHE_PRELOAD_CTRL,
   EXTMEM_ICACHE_PRELOAD_ADDR,
   EXTMEM_ICACHE_PRELOAD_SIZE,
   EXTMEM_ICACHE_AUTOLOAD_CTRL]

/-- The part `X` of a register name `pre ++ X`, when the name starts with `pre`. -/
def reg_stem (pre : String) (r : Reg32) : Option (List Char) :=
  if r.reg.toList.take pre.toList.length = pre.toList then
    some (r.reg.toList.drop pre.toList.length)
  else none

/-- The register `EXTMEM_ICACHE_X` of the instruction-cache block for a
register `EXTMEM_DCACHE_X`, when there is one. -/
def icache_counterpart (d : Reg32) : Option Reg32 :=
  match reg_stem "EXTMEM_DCACHE_" d with
  | none => none
  | some x => icache_block.find? fun i => reg_stem "EXTMEM_ICACHE_" i = some x

/-- The pairs `(EXTMEM_DCACHE_X, EXTMEM_ICACHE_X)` of the two control blocks. -/
def mirror_pairs : List (Reg32 × Reg32) :=
  dcache_block.filterMap fun d => (icache_counterpart d).map fun i => (d, i)

/-- Modelled from the spec: the field accessor `FIELD_EX32` of
`hw/registerfields.h` and `extract32` of `qemu/bitops.h` are not part of the
header; a named sub-field at a fixed bit offset and width is read by
shifting the 32-bit value right by the offset and masking `length` bits,
`(value >> start) & (~0U >> (32 - length))`. -/
def extract32 (value start length : Nat) : Nat :=
  (value >>> start) &&& (0xFFFFFFFF >>> (32 - length))

/-- Field read `FIELD_EX32(storage, reg, field)` through a `FIELD` declaration. -/
def FIELD_EX32 (storage : Nat) (f : Field) : Nat := extract32 storage f.shift f.length

/-! ## Device state -/

/-- Source: `typedef struct { ... } ESP32S3CacheState`, the members the
device model owns: the enable flags, the window bases, the register array
`uint32_t regs[ESP32S3_CACHE_REG_COUNT]` and the table
`ESP32S3MMUEntry mmu[ESP32S3_MMU_TABLE_ENTRY_COUNT]`.  A C array of `n`
elements is a map from the indices below `n`. -/
structure ESP32S3CacheState where
  icache_enable : Bool
  dcache_enable : Bool
  dcache_base : Nat
  icache_base : Nat
  regs : Fin ESP32S3_CACHE_REG_COUNT → Nat
  mmu : Fin ESP32S3_MMU_TABLE_ENTRY_COUNT → ESP32S3MMUEntry

/-- Size in bytes of the member `mmu`, the operand of
`_Static_assert(sizeof(((ESP32S3CacheState*)0)->mmu) == ESP32S3_MMU_SIZE, ...)`. -/
def sizeof_mmu : Nat := ESP32S3_MMU_TABLE_ENTRY_COUNT * sizeof_ESP32S3MMUEntry

/-- The element `s->mmu[i]`, defined for the indices of the array only. -/
def mmu_at (s : ESP32S3CacheState) (i : Nat) : Option ESP32S3MMUEntry :=
  if h : i < ESP32S3_MMU_TABLE_ENTRY_COUNT then some (s.mmu ⟨i, h⟩) else none

/-- The element `s->regs[i]`, defined for the indices of the array only. -/
def regs_at (s : ESP32S3CacheState) (i : Nat) : Option Nat :=
  if h : i < ESP32S3_CACHE_REG_COUNT then some (s.regs ⟨i, h⟩) else none

/-! ## Translation engine -/

/-- Modelled from the spec: `deposit32` of `qemu/bitops.h` is not part of the
header; a named sub-field at a fixed bit offset and width is written by
replacing its bits and keeping the others,
`(value & ~mask) | ((fieldval << start) & mask)` with
`mask = (~0U >> (32 - length)) << start`, all in `uint32_t`. -/
def deposit32 (value start length fieldval : Nat) : Nat :=
  (value &&& (0xFFFFFFFF ^^^ ((0xFFFFFFFF >>> (32 - length)) <<< start))) |||
    ((fieldval <<< start) &&& ((0xFFFFFFFF >>> (32 - length)) <<< start))

/-- Field write `FIELD_DP32(storage, reg, field, val)` through a `FIELD`
declaration: the value is first converted to an unsigned bit-field of
`length` bits, then deposited. -/
def FIELD_DP32 (storage : Nat) (f : Field) (val : Nat) : Nat :=
  deposit32 storage f.shift f.length (val % 2 ^ f.length)

/-- The bit `bit` of the register word belongs to the field `f`. -/
def Field.has_bit (f : Field) (bit : Nat) : Prop := f.shift ≤ bit ∧ bit < f.shift + f.length

instance (f : Field) (bit : Nat) : Decidable (f.has_bit bit) := by
  unfold Field.has_bit
  infer_instance

/-- The name `X` of a name `X ++ suf`, when the name ends with `suf`. -/
def drop_ending (suf : String) (name : List Char) : Option (List Char) :=
  if name.reverse.take suf.toList.length = suf.toList.reverse then
    some (name.reverse.drop suf.toList.length).reverse
  else none

/-- The fault source a field of the illegal-interrupt registers is named
for: the field name without its ending `_INT_ENA`, `_INT_CLR` or `_ST`. -/
def int_source (f : Field) : List Char :=
  match drop_ending "_INT_ENA" f.field.toList with
  | some x => x
  | none =>
    match drop_ending "_INT_CLR" f.field.toList with
    | some x => x
    | none =>
      match drop_ending "_ST" f.field.toList with
      | some x => x
      | none => f.field.toList

/-- The declared registers whose name starts with `pre`. -/
def regs_starting (pre : String) : List Reg32 :=
  register_map.filter fun r => (reg_stem pre r).isSome

/-- The declared registers named `name`. -/
def regs_named (name : String) : List Reg32 :=
  register_map.filter fun r => r.reg = name

/-- The boundary registers `EXTMEM_<bus>_PMS_TBL_BOUNDARY...` of a bus. -/
def pms_boundary_regs (bus : String) : List Reg32 :=
  regs_starting ("EXTMEM_" ++ bus ++ "_PMS_TBL_BOUNDARY")

/-- The lock registers `EXTMEM_<bus>_PMS_TBL_LOCK` of a bus. -/
def pms_lock_regs (bus : String) : List Reg32 :=
  regs_named ("EXTMEM_" ++ bus ++ "_PMS_TBL_LOCK")

/-- The attribute registers `EXTMEM_<bus>_PMS_TBL_ATTR` of a bus. -/
def pms_attr_regs (bus : String) : List Reg32 :=
  regs_named ("EXTMEM_" ++ bus ++ "_PMS_TBL_ATTR")

/-- The access-violation interrupt registers of the two cores, each as the
triple status, enable, clear. -/
def acs_cache_int_regs : List (Reg32 × Reg32 × Reg32) :=
  [(EXTMEM_CORE0_ACS_CACHE_INT_ST, EXTMEM_CORE0_ACS_CACHE_INT_ENA, EXTMEM_CORE0_ACS_CACHE_INT_CLR),
   (EXTMEM_CORE1_ACS_CACHE_INT_ST, EXTMEM_CORE1_ACS_CACHE_INT_ENA, EXTMEM_CORE1_ACS_CACHE_INT_CLR)]

/-- The bit positions and widths of the fields of a register, in
declaration order. -/
def Reg32.layout (r : Reg32) : List (Nat × Nat) := r.fields.map fun f => (f.shift, f.length)

/-- The pairs of registers of a list, earlier one first, that are declared
at the same byte offset. -/
def aliases_in : List Reg32 → List (Reg32 × Reg32)
  | [] => []
  | r :: rs => ((rs.filter fun x => x.A = r.A).map fun x => (r, x)) ++ aliases_in rs

/-- The pairs of declared registers that share one byte offset. -/
def aliased_pairs : List (Reg32 × Reg32) := aliases_in register_map

/-! ## Mirrored registers over the whole register map -/

/-- The declared register `EXTMEM_ICACHE_X` for a register `EXTMEM_DCACHE_X`,
looked up by name in the whole register map. -/
def icache_counterpart_in_map (d : Reg32) : Option Reg32 :=
  match reg_stem "EXTMEM_DCACHE_" d with
  | none => none
  | some x => register_map.find? fun i => reg_stem "EXTMEM_ICACHE_" i = some x

/-- Every pair `(EXTMEM_DCACHE_X, EXTMEM_ICACHE_X)` of declared registers. -/
def all_mirror_pairs : List (Reg32 × Reg32) :=
  register_map.filterMap fun d => (icache_counterpart_in_map d).map fun i => (d, i)

/-- The name of a field without a leading `DCACHE_` or `ICACHE_`. -/
def cache_free_name (f : Field) : List Char :=
  if f.field.toList.take 7 = "DCACHE_".toList then f.field.toList.drop 7
  else if f.field.toList.take 7 = "ICACHE_".toList then f.field.toList.drop 7
  else f.field.toList

/-! ## MMU table and translation engine of the design -/

/-- Modelled from the spec: the failure `OutOfRange` of the MMU table
accessors; no table accessor is part of the header. -/
inductive TableError where
  | OutOfRange
deriving DecidableEq, Repr

/-- The state with `s->mmu[index] = e`. -/
def mmu_set (s : ESP32S3CacheState) (index : Nat) (e : ESP32S3MMUEntry) : ESP32S3CacheState :=
  ⟨s.icache_enable, s.dcache_enable, s.dcache_base, s.icache_base, s.regs,
   fun j => if j.val = index then e else s.mmu j⟩

/-- Modelled from the spec: the entry a write of the 32-bit value `v` leaves in
the table.  The value arrives through the `val` view of the union, and
"reserved bits are always zero on write; any attempt to set them is masked
off, never stored": the `reserved` field is cleared before the entry is
stored. -/
def mmu_entry_of_write (v : Nat) : ESP32S3MMUEntry :=
  (ESP32S3MMUEntry.of_val v).set_reserved 0

/-- Modelled from the spec: the register-mapped write of a 32-bit value to the
table-indexed location `index`, the only way the table is mutated; it fails
with `OutOfRange` if `index >= 512`.  The write handler is not part of the
header. -/
def write_mmu_value (s : ESP32S3CacheState) (index v : Nat) :
    Except TableError ESP32S3CacheState :=
  if index < ESP32S3_MMU_TABLE_ENTRY_COUNT then .ok (mmu_set s index (mmu_entry_of_write v))
  else .error .OutOfRange

/-- Modelled from the spec: `get_entry(index)` returns the stored entry or
fails `OutOfRange`. -/
def get_entry (s : ESP32S3CacheState) (index : Nat) : Except TableError ESP32S3MMUEntry :=
  match mmu_at s index with
  | some e => .ok e
  | none => .error .OutOfRange

/-- A device state whose table is all-invalid except entry 2, which holds
`page_number = 5, invalid = 0`; the registers are zero. -/
def scenario_state : ESP32S3CacheState :=
  ⟨true, true, ESP32S3_DCACHE_BASE, ESP32S3_ICACHE_BASE, fun _ => 0,
   fun i => if i.val = 2 then ⟨ESP32S3MMUEntry.encode 5 0⟩ else ⟨ESP32S3MMUEntry.encode 0 1⟩⟩

open ESP32S3MMUEntry

/-- C1: an MMU entry whose fields are written as `page_number = p`,
`invalid = b`, `reserved = 0`, with `p` in 0..255 and `b` in 0..1, reads back
`p` and `b` through the fields, also after going through its 32-bit `val`
representation, and `decode (encode p b) = (p, b)`. -/
theorem mmu_entry_round_trip (e : ESP32S3MMUEntry) (p b : Nat) (hp : p < 256) (hb : b < 2) :
    (write_fields e p b).page_number = p ∧
    (write_fields e p b).invalid = b ∧
    (write_fields e p b).reserved = 0 ∧
    decode (of_val (write_fields e p b).val) = (p, b) ∧
    decode (of_val (encode p b)) = (p, b) := by
  simp only [write_fields, set_reserved, set_invalid, set_page_number, page_number, invalid,
    reserved, decode, of_val, encode, UINT32_MOD, Prod.mk.injEq]
  norm_num
  omega

/-- Witness of C1 at `page_number = 0xAB`, `invalid = 1`, written over an
entry with every bit set. -/
theorem mmu_entry_round_trip_witness :
    (write_fields ⟨0xFFFFFFFF⟩ 0xAB 1).page_number = 0xAB ∧
    (write_fields ⟨0xFFFFFFFF⟩ 0xAB 1).invalid = 1 ∧
    (write_fields ⟨0xFFFFFFFF⟩ 0xAB 1).reserved = 0 ∧
    decode (of_val (write_fields ⟨0xFFFFFFFF⟩ 0xAB 1).val) = (0xAB, 1) ∧
    decode (of_val (encode 0xAB 1)) = (0xAB, 1) :=
  mmu_entry_round_trip ⟨0xFFFFFFFF⟩ 0xAB 1 (by decide) (by decide)

/-- A bare store through the `val` member masks nothing: the value `0x200`
reads back `reserved = 1`.  Clearing the reserved bits is the work of the
table writer. -/
theorem reserved_not_masked_by_val_store :
    0x200 < UINT32_MOD ∧ (of_val 0x200).reserved = 1 ∧ (of_val 0x200).reserved ≠ 0 := by
  decide

/-- A 32-bit value `v` stored through the bare `val` member is kept whole, its
`reserved` field reads back bits 9..31 of `v`, and that is 0 exactly when
`v < 2 ^ 9`. -/
theorem reserved_reads_stored_bits (v : Nat) (hv : v < UINT32_MOD) :
    (of_val v).val = v ∧
    (of_val v).reserved = v / 2 ^ 9 ∧
    ((of_val v).reserved = 0 ↔ v < 2 ^ 9) := by
  simp only [of_val, reserved, UINT32_MOD] at *
  norm_num at *
  omega

/-- C3: for the instruction and the data window, every address of the window
has a page index below `ESP32S3_MMU_TABLE_ENTRY_COUNT`; the last address of
the window has index 511, the first address past it has index 512, which is
out of range; and the window size is the entry count times the page size. -/
theorem cache_window_page_index (base a : Nat)
    (hbase : base = ESP32S3_ICACHE_BASE ∨ base = ESP32S3_DCACHE_BASE) :
    (base ≤ a → a < base + ESP32S3_EXTMEM_REGION_SIZE →
      (a - base) / ESP32S3_PAGE_SIZE < ESP32S3_MMU_TABLE_ENTRY_COUNT) ∧
    (base + ESP32S3_EXTMEM_REGION_SIZE - 1 - base) / ESP32S3_PAGE_SIZE = 511 ∧
    511 < ESP32S3_MMU_TABLE_ENTRY_COUNT ∧
    (base + ESP32S3_EXTMEM_REGION_SIZE - base) / ESP32S3_PAGE_SIZE = 512 ∧
    ¬ 512 < ESP32S3_MMU_TABLE_ENTRY_COUNT ∧
    ESP32S3_EXTMEM_REGION_SIZE = ESP32S3_MMU_TABLE_ENTRY_COUNT * ESP32S3_PAGE_SIZE := by
  simp only [ESP32S3_ICACHE_BASE, ESP32S3_DCACHE_BASE, ESP32S3_EXTMEM_REGION_SIZE,
    ESP32S3_PAGE_SIZE, ESP32S3_MMU_TABLE_ENTRY_COUNT, ESP32S3_MMU_SIZE, sizeof_uint32_t] at *
  norm_num
  rcases hbase with h | h <;> subst h <;> omega

/-- Witness of C3 at the data window and an address in its page 3. -/
theorem cache_window_page_index_witness :
    (ESP32S3_DCACHE_BASE ≤ 0x3c030004 → 0x3c030004 < ESP32S3_DCACHE_BASE + ESP32S3_EXTMEM_REGION_SIZE →
      (0x3c030004 - ESP32S3_DCACHE_BASE) / ESP32S3_PAGE_SIZE < ESP32S3_MMU_TABLE_ENTRY_COUNT) ∧
    (ESP32S3_DCACHE_BASE + ESP32S3_EXTMEM_REGION_SIZE - 1 - ESP32S3_DCACHE_BASE) / ESP32S3_PAGE_SIZE
      = 511 ∧
    511 < ESP32S3_MMU_TABLE_ENTRY_COUNT ∧
    (ESP32S3_DCACHE_BASE + ESP32S3_EXTMEM_REGION_SIZE - ESP32S3_DCACHE_BASE) / ESP32S3_PAGE_SIZE
      = 512 ∧
    ¬ 512 < ESP32S3_MMU_TABLE_ENTRY_COUNT ∧
    ESP32S3_EXTMEM_REGION_SIZE = ESP32S3_MMU_TABLE_ENTRY_COUNT * ESP32S3_PAGE_SIZE :=
  cache_window_page_index ESP32S3_DCACHE_BASE 0x3c030004 (Or.inr rfl)

/-- C5: the MMU table of the device state has exactly 512 entries of 4 bytes:
`ESP32S3_MMU_TABLE_ENTRY_COUNT = ESP32S3_MMU_SIZE / 4 = 512`, the table
occupies `ESP32S3_MMU_SIZE = 2048` bytes, and `s->mmu[i]` exists exactly for
the indices 0..511. -/
theorem mmu_table_has_512_entries :
    ESP32S3_MMU_TABLE_ENTRY_COUNT = ESP32S3_MMU_SIZE / 4 ∧
    ESP32S3_MMU_TABLE_ENTRY_COUNT = 512 ∧
    sizeof_ESP32S3MMUEntry = 4 ∧
    sizeof_ESP32S3MMUEntry = sizeof_uint32_t ∧
    sizeof_mmu = ESP32S3_MMU_SIZE ∧
    ESP32S3_MMU_SIZE = 2048 ∧
    ∀ (s : ESP32S3CacheState) (i : Nat), (mmu_at s i).isSome = true ↔ i ≤ 511 := by
  refine ⟨by decide, by decide, by decide, by decide, by decide, by decide, ?_⟩
  intro s i
  have hcount : ESP32S3_MMU_TABLE_ENTRY_COUNT = 512 := by decide
  unfold mmu_at
  split
  · simp; omega
  · simp; omega

/-- C6: the entry is packed into 32 bits as an 8-bit `page_number`, a 1-bit
`invalid` and a 23-bit `reserved` (8 + 1 + 23 = 32): for every 32-bit `v` the
entry with `val = v` satisfies
`v = page_number + 2^8 * invalid + 2^9 * reserved` with each field below its
bound, and no other triple within the bounds decomposes `v`. -/
theorem mmu_entry_packing (v : Nat) (hv : v < UINT32_MOD) :
    8 + 1 + 23 = 32 ∧
    sizeof_ESP32S3MMUEntry * 8 = 32 ∧
    v = (of_val v).page_number + 2 ^ 8 * (of_val v).invalid + 2 ^ 9 * (of_val v).reserved ∧
    (of_val v).page_number < 2 ^ 8 ∧ (of_val v).invalid < 2 ∧ (of_val v).reserved < 2 ^ 23 ∧
    ∀ p i r : Nat, p < 2 ^ 8 → i < 2 → r < 2 ^ 23 → v = p + 2 ^ 8 * i + 2 ^ 9 * r →
      p = (of_val v).page_number ∧ i = (of_val v).invalid ∧ r = (of_val v).reserved := by
  refine ⟨by decide, by decide, ?_⟩
  simp only [of_val, page_number, invalid, reserved, UINT32_MOD] at *
  norm_num at *
  refine ⟨by omega, by omega, by omega, by omega, ?_⟩
  intro p i r hp hi hr hdec
  omega

/-- Witness of C6 at `v = 0xDEADBEEF`. -/
theorem mmu_entry_packing_witness :
    8 + 1 + 23 = 32 ∧
    sizeof_ESP32S3MMUEntry * 8 = 32 ∧
    0xDEADBEEF = (of_val 0xDEADBEEF).page_number + 2 ^ 8 * (of_val 0xDEADBEEF).invalid
      + 2 ^ 9 * (of_val 0xDEADBEEF).reserved ∧
    (of_val 0xDEADBEEF).page_number < 2 ^ 8 ∧ (of_val 0xDEADBEEF).invalid < 2 ∧
    (of_val 0xDEADBEEF).reserved < 2 ^ 23 ∧
    ∀ p i r : Nat, p < 2 ^ 8 → i < 2 → r < 2 ^ 23 → 0xDEADBEEF = p + 2 ^ 8 * i + 2 ^ 9 * r →
      p = (of_val 0xDEADBEEF).page_number ∧ i = (of_val 0xDEADBEEF).invalid ∧
      r = (of_val 0xDEADBEEF).reserved :=
  mmu_entry_packing 0xDEADBEEF (by decide)

/-- C7: every register declared with `REG32` has an offset that is a
multiple of 4 and lies in `0x000..0x3FC`. -/
theorem register_offsets_aligned_in_range (r : Reg32) (hr : r ∈ register_map) :
    r.A % 4 = 0 ∧ r.A ≤ 0x3FC := by
  have key : ∀ x ∈ register_map, x.A % 4 = 0 ∧ x.A ≤ 0x3FC := by decide
  exact key r hr

/-- Witness of C7 at `EXTMEM_DATE`, the register with the largest offset. -/
theorem register_offsets_aligned_in_range_witness :
    EXTMEM_DATE.A % 4 = 0 ∧ EXTMEM_DATE.A ≤ 0x3FC :=
  register_offsets_aligned_in_range EXTMEM_DATE (by decide)

/-- C8, as stated, fails: `EXTMEM_DATE` is declared at offset `0x3FC`, its
index `0x3FC / 4 = 255` is not below `ESP32S3_CACHE_REG_COUNT = 128`, so
`regs` has no element for it. -/
theorem date_register_outside_regs :
    EXTMEM_DATE ∈ register_map ∧
    ESP32S3_CACHE_REG_IDX EXTMEM_DATE.A = 255 ∧
    ESP32S3_CACHE_REG_COUNT = 128 ∧
    ¬ ESP32S3_CACHE_REG_IDX EXTMEM_DATE.A < ESP32S3_CACHE_REG_COUNT ∧
    ∀ s : ESP32S3CacheState, regs_at s (ESP32S3_CACHE_REG_IDX EXTMEM_DATE.A) = none := by
  refine ⟨by decide, by decide, by decide, by decide, ?_⟩
  intro s
  have h : ¬ ESP32S3_CACHE_REG_IDX EXTMEM_DATE.A < ESP32S3_CACHE_REG_COUNT := by decide
  simp [regs_at, h]

/-- C8 amended: every declared register other than `EXTMEM_DATE` has an index
`ESP32S3_CACHE_REG_IDX(offset) = offset / 4` below `ESP32S3_CACHE_REG_COUNT`,
so `regs` holds an element for it. -/
theorem declared_register_index_valid (r : Reg32) (hr : r ∈ register_map)
    (hdate : r ≠ EXTMEM_DATE) :
    ESP32S3_CACHE_REG_IDX r.A = r.A / 4 ∧
    ESP32S3_CACHE_REG_IDX r.A < ESP32S3_CACHE_REG_COUNT ∧
    ∀ s : ESP32S3CacheState, (regs_at s (ESP32S3_CACHE_REG_IDX r.A)).isSome = true := by
  have key : ∀ x ∈ register_map, x ≠ EXTMEM_DATE →
      ESP32S3_CACHE_REG_IDX x.A < ESP32S3_CACHE_REG_COUNT := by decide
  have h := key r hr hdate
  refine ⟨rfl, h, ?_⟩
  intro s
  simp [regs_at, h]

/-- Witness of the amended C8 at `EXTMEM_CLOCK_GATE`, the register with the
largest offset below `EXTMEM_DATE`. -/
theorem declared_register_index_valid_witness :
    ESP32S3_CACHE_REG_IDX EXTMEM_CLOCK_GATE.A = EXTMEM_CLOCK_GATE.A / 4 ∧
    ESP32S3_CACHE_REG_IDX EXTMEM_CLOCK_GATE.A < ESP32S3_CACHE_REG_COUNT ∧
    ∀ s : ESP32S3CacheState,
      (regs_at s (ESP32S3_CACHE_REG_IDX EXTMEM_CLOCK_GATE.A)).isSome = true :=
  declared_register_index_valid EXTMEM_CLOCK_GATE (by decide) (by decide)

/-- C9, as stated, fails: `EXTMEM_DCACHE_PRELOAD_CTRL` at `0x040` has the
counterpart `EXTMEM_ICACHE_PRELOAD_CTRL` at `0x094`, which is not
`0x040 + 0x060`, and no single shift fits every pair of the two blocks. -/
theorem preload_ctrl_not_shifted_by_0x60 :
    (EXTMEM_DCACHE_PRELOAD_CTRL, EXTMEM_ICACHE_PRELOAD_CTRL) ∈ mirror_pairs ∧
    EXTMEM_ICACHE_CTRL.A = EXTMEM_DCACHE_CTRL.A + 0x060 ∧
    EXTMEM_ICACHE_PRELOAD_CTRL.A ≠ EXTMEM_DCACHE_PRELOAD_CTRL.A + 0x060 ∧
    ¬ ∃ shift : Nat, ∀ pair ∈ mirror_pairs, pair.2.A = pair.1.A + shift := by
  refine ⟨by decide, by decide, by decide, ?_⟩
  rintro ⟨shift, h⟩
  have h1 := h (EXTMEM_DCACHE_CTRL, EXTMEM_ICACHE_CTRL) (by decide)
  have h2 := h (EXTMEM_DCACHE_PRELOAD_CTRL, EXTMEM_ICACHE_PRELOAD_CTRL) (by decide)
  simp only [Reg32.A, EXTMEM_DCACHE_CTRL, EXTMEM_ICACHE_CTRL, EXTMEM_DCACHE_PRELOAD_CTRL,
    EXTMEM_ICACHE_PRELOAD_CTRL, REG32] at h1 h2
  omega

/-- C9 amended: for every data-cache control register with an
instruction-cache counterpart, other than `SYNC_ADDR`, `PRELOAD_CTRL` and
`AUTOLOAD_CTRL`, the counterpart lies `0x060` bytes higher, `0x060` being the
distance between `EXTMEM_DCACHE_CTRL` and `EXTMEM_ICACHE_CTRL`; the
counterparts of `PRELOAD_CTRL` and `AUTOLOAD_CTRL` lie `0x054` bytes higher. -/
theorem icache_block_shift (d i : Reg32) (hpair : (d, i) ∈ mirror_pairs) :
    EXTMEM_ICACHE_CTRL.A - EXTMEM_DCACHE_CTRL.A = 0x060 ∧
    (d ∉ [EXTMEM_DCACHE_SYNC_ADDR, EXTMEM_DCACHE_PRELOAD_CTRL, EXTMEM_DCACHE_AUTOLOAD_CTRL] →
      i.A = d.A + 0x060) ∧
    (d ∈ [EXTMEM_DCACHE_PRELOAD_CTRL, EXTMEM_DCACHE_AUTOLOAD_CTRL] → i.A = d.A + 0x054) := by
  have key : ∀ pair ∈ mirror_pairs,
      (pair.1 ∉ [EXTMEM_DCACHE_SYNC_ADDR, EXTMEM_DCACHE_PRELOAD_CTRL,
          EXTMEM_DCACHE_AUTOLOAD_CTRL] → pair.2.A = pair.1.A + 0x060) ∧
      (pair.1 ∈ [EXTMEM_DCACHE_PRELOAD_CTRL, EXTMEM_DCACHE_AUTOLOAD_CTRL] →
        pair.2.A = pair.1.A + 0x054) := by decide
  exact ⟨by decide, key (d, i) hpair⟩

/-- Witness of the amended C9 at the pair of the `LOCK_SIZE` registers. -/
theorem icache_block_shift_witness :
    EXTMEM_ICACHE_CTRL.A - EXTMEM_DCACHE_CTRL.A = 0x060 ∧
    (EXTMEM_DCACHE_LOCK_SIZE ∉ [EXTMEM_DCACHE_SYNC_ADDR, EXTMEM_DCACHE_PRELOAD_CTRL,
        EXTMEM_DCACHE_AUTOLOAD_CTRL] →
      EXTMEM_ICACHE_LOCK_SIZE.A = EXTMEM_DCACHE_LOCK_SIZE.A + 0x060) ∧
    (EXTMEM_DCACHE_LOCK_SIZE ∈ [EXTMEM_DCACHE_PRELOAD_CTRL, EXTMEM_DCACHE_AUTOLOAD_CTRL] →
      EXTMEM_ICACHE_LOCK_SIZE.A = EXTMEM_DCACHE_LOCK_SIZE.A + 0x054) :=
  icache_block_shift EXTMEM_DCACHE_LOCK_SIZE EXTMEM_ICACHE_LOCK_SIZE (by decide)

/-- Within the two control blocks, for every data-cache register with an
instruction-cache counterpart, every field of the one exists under the same
name in the other with the same bit offset and the same width, and a field
read of a 32-bit value gives the same result through either declaration. -/
theorem mirror_fields_identical (d i : Reg32) (hpair : (d, i) ∈ mirror_pairs) :
    (∀ f ∈ d.fields, ∃ g ∈ i.fields,
      g.field = f.field ∧ g.shift = f.shift ∧ g.length = f.length) ∧
    (∀ g ∈ i.fields, ∃ f ∈ d.fields,
      f.field = g.field ∧ f.shift = g.shift ∧ f.length = g.length) ∧
    (∀ f ∈ d.fields, ∀ g ∈ i.fields, f.field = g.field →
      f.shift = g.shift ∧ f.length = g.length ∧
      ∀ v : Nat, FIELD_EX32 v f = FIELD_EX32 v g) := by
  have key : ∀ pair ∈ mirror_pairs,
      (∀ f ∈ pair.1.fields, ∃ g ∈ pair.2.fields,
        g.field = f.field ∧ g.shift = f.shift ∧ g.length = f.length) ∧
      (∀ g ∈ pair.2.fields, ∃ f ∈ pair.1.fields,
        f.field = g.field ∧ f.shift = g.shift ∧ f.length = g.length) ∧
      (∀ f ∈ pair.1.fields, ∀ g ∈ pair.2.fields, f.field = g.field →
        f.shift = g.shift ∧ f.length = g.length) := by decide
  obtain ⟨h1, h2, h3⟩ := key (d, i) hpair
  refine ⟨h1, h2, ?_⟩
  intro f hf g hg hname
  obtain ⟨hs, hl⟩ := h3 f hf g hg hname
  refine ⟨hs, hl, ?_⟩
  intro v
  simp only [FIELD_EX32, hs, hl]

/-! ### Bits of a field read and of a field write -/

/-- The mask `~0U >> (32 - length)` has exactly its `length` low bits set. -/
theorem testBit_low_mask (length i : Nat) (hl : length ≤ 32) :
    (0xFFFFFFFF >>> (32 - length)).testBit i = decide (i < length) := by
  have h : (0xFFFFFFFF : Nat) = 2 ^ 32 - 1 := by norm_num
  rw [h, Nat.testBit_shiftRight, Nat.testBit_two_pow_sub_one]
  by_cases hi : i < length
  · simp [hi]; omega
  · simp [hi]; omega

/-- The word `~0U` has exactly its 32 low bits set. -/
theorem testBit_all_ones (j : Nat) : (0xFFFFFFFF : Nat).testBit j = decide (j < 32) := by
  have h : (0xFFFFFFFF : Nat) = 2 ^ 32 - 1 := by norm_num
  rw [h, Nat.testBit_two_pow_sub_one]

/-- Bit `i` of `extract32 v s l` is bit `s + i` of `v` for `i < l`, else clear. -/
theorem extract32_testBit (v s l i : Nat) (hl : l ≤ 32) :
    (extract32 v s l).testBit i = (v.testBit (s + i) && decide (i < l)) := by
  simp only [extract32, Nat.testBit_and, Nat.testBit_shiftRight, testBit_low_mask l i hl]

/-- Bit `j` of `deposit32 v s l x` is bit `j - s` of `x` inside the field and
bit `j` of the 32-bit word `v` outside it. -/
theorem deposit32_testBit (v s l x j : Nat) (hl : s + l ≤ 32) :
    (deposit32 v s l x).testBit j =
      if s ≤ j ∧ j < s + l then x.testBit (j - s) else (v.testBit j && decide (j < 32)) := by
  have hl32 : l ≤ 32 := by omega
  simp only [deposit32, Nat.testBit_or, Nat.testBit_and, Nat.testBit_xor, Nat.testBit_shiftLeft,
    testBit_low_mask l _ hl32, testBit_all_ones]
  by_cases h1 : s ≤ j
  · by_cases h2 : j < s + l
    · have h3 : j - s < l := by omega
      have h4 : j < 32 := by omega
      simp [h1, h2, h3, h4]
    · have h3 : ¬ j - s < l := by omega
      simp [h1, h2, h3]
  · have h3 : ¬ j ≥ s := by omega
    simp [h1, h3]

/-- Reading a field that was just written returns the written value, reduced
to the width of the field. -/
theorem extract32_deposit32_same (v s l x : Nat) (hl : s + l ≤ 32) :
    extract32 (deposit32 v s l x) s l = x % 2 ^ l := by
  apply Nat.eq_of_testBit_eq
  intro i
  rw [extract32_testBit _ _ _ _ (by omega), deposit32_testBit _ _ _ _ _ hl, Nat.testBit_mod_two_pow]
  by_cases hi : i < l
  · have : s ≤ s + i ∧ s + i < s + l := by omega
    simp [hi, this]
  · simp [hi]

/-- A field write leaves the read of a field on other bits unchanged. -/
theorem extract32_deposit32_other (v s l x s2 l2 : Nat) (hl : s + l ≤ 32) (hl2 : s2 + l2 ≤ 32)
    (hdis : s + l ≤ s2 ∨ s2 + l2 ≤ s) :
    extract32 (deposit32 v s l x) s2 l2 = extract32 v s2 l2 := by
  apply Nat.eq_of_testBit_eq
  intro i
  rw [extract32_testBit _ _ _ _ (by omega), extract32_testBit _ _ _ _ (by omega),
    deposit32_testBit _ _ _ _ _ hl]
  by_cases hi : i < l2
  · have h1 : ¬ (s ≤ s2 + i ∧ s2 + i < s + l) := by omega
    have h2 : s2 + i < 32 := by omega
    simp [hi, h1, h2]
  · simp [hi]

/-- Two fields on separate bit ranges have no bit in common. -/
theorem no_shared_bit (f g : Field)
    (hdis : f.shift + f.length ≤ g.shift ∨ g.shift + g.length ≤ f.shift) (bit : Nat) :
    ¬ (f.has_bit bit ∧ g.has_bit bit) := by
  simp only [Field.has_bit]
  omega

/-! ### Interrupt, fault and permission registers -/

/-- C11, as stated, fails: the status register defines the 1-bit field
`DBUS_ACS_FLASH_MISS_CNT_OVF_ST` at bit 10 (and `DBUS_ACS_CNT_OVF_ST` at bit
9), and neither the enable nor the clear register defines a field at bit 10
(or 9); the status bit 8 is named for the instruction-bus miss counter while
the enable bit 8 is named for the data-bus counter. -/
theorem ilg_int_st_bit10_without_enable :
    FIELD "EXTMEM_CACHE_ILG_INT_ST" "DBUS_ACS_FLASH_MISS_CNT_OVF_ST" 10 1
      ∈ EXTMEM_CACHE_ILG_INT_ST.fields ∧
    (¬ ∃ e ∈ EXTMEM_CACHE_ILG_INT_ENA.fields, e.shift = 10) ∧
    (¬ ∃ c ∈ EXTMEM_CACHE_ILG_INT_CLR.fields, c.shift = 10) ∧
    FIELD "EXTMEM_CACHE_ILG_INT_ST" "DBUS_ACS_CNT_OVF_ST" 9 1 ∈ EXTMEM_CACHE_ILG_INT_ST.fields ∧
    (¬ ∃ e ∈ EXTMEM_CACHE_ILG_INT_ENA.fields, e.shift = 9) ∧
    (¬ ∃ c ∈ EXTMEM_CACHE_ILG_INT_CLR.fields, c.shift = 9) ∧
    FIELD "EXTMEM_CACHE_ILG_INT_ST" "IBUS_ACS_MISS_CNT_OVF_ST" 8 1
      ∈ EXTMEM_CACHE_ILG_INT_ST.fields ∧
    FIELD "EXTMEM_CACHE_ILG_INT_ENA" "DBUS_CNT_OVF_INT_ENA" 8 1
      ∈ EXTMEM_CACHE_ILG_INT_ENA.fields := by
  decide

/-- C11 amended: the status register declares seven 1-bit fields, at the
bits 10, 9, 8, 7, 5, 1, 0, the enable and the clear register five each, at the
bits 8, 7, 5, 1, 0, named as listed.  For every status field at a position
other than 9 and 10 the enable and the clear register each define a 1-bit
field at the same position; at the positions 0, 1 and 5 the three fields are
named for the same fault source; no enable or clear field lies at bit 9 or
10. -/
theorem ilg_int_status_enable_clear (f : Field) (hf : f ∈ EXTMEM_CACHE_ILG_INT_ST.fields)
    (hpos : f.shift ≠ 9 ∧ f.shift ≠ 10) :
    f.length = 1 ∧
    (∃ e ∈ EXTMEM_CACHE_ILG_INT_ENA.fields, e.shift = f.shift ∧ e.length = 1 ∧
      (f.shift ∈ [0, 1, 5] → int_source e = int_source f)) ∧
    (∃ c ∈ EXTMEM_CACHE_ILG_INT_CLR.fields, c.shift = f.shift ∧ c.length = 1 ∧
      (f.shift ∈ [0, 1, 5] → int_source c = int_source f)) ∧
    EXTMEM_CACHE_ILG_INT_ST.fields.map (fun x => (x.field, x.shift, x.length)) =
      [("DBUS_ACS_FLASH_MISS_CNT_OVF_ST", 10, 1), ("DBUS_ACS_CNT_OVF_ST", 9, 1),
       ("IBUS_ACS_MISS_CNT_OVF_ST", 8, 1), ("IBUS_ACS_CNT_OVF_ST", 7, 1),
       ("MMU_ENTRY_FAULT_ST", 5, 1), ("ICACHE_PRELOAD_OP_FAULT_ST", 1, 1),
       ("ICACHE_SYNC_OP_FAULT_ST", 0, 1)] ∧
    EXTMEM_CACHE_ILG_INT_ENA.fields.map (fun x => (x.field, x.shift, x.length)) =
      [("DBUS_CNT_OVF_INT_ENA", 8, 1), ("IBUS_CNT_OVF_INT_ENA", 7, 1),
       ("MMU_ENTRY_FAULT_INT_ENA", 5, 1), ("ICACHE_PRELOAD_OP_FAULT_INT_ENA", 1, 1),
       ("ICACHE_SYNC_OP_FAULT_INT_ENA", 0, 1)] ∧
    EXTMEM_CACHE_ILG_INT_CLR.fields.map (fun x => (x.field, x.shift, x.length)) =
      [("DBUS_CNT_OVF_INT_CLR", 8, 1), ("IBUS_CNT_OVF_INT_CLR", 7, 1),
       ("MMU_ENTRY_FAULT_INT_CLR", 5, 1), ("ICACHE_PRELOAD_OP_FAULT_INT_CLR", 1, 1),
       ("ICACHE_SYNC_OP_FAULT_INT_CLR", 0, 1)] ∧
    (¬ ∃ e ∈ EXTMEM_CACHE_ILG_INT_ENA.fields, e.has_bit 9 ∨ e.has_bit 10) ∧
    (¬ ∃ c ∈ EXTMEM_CACHE_ILG_INT_CLR.fields, c.has_bit 9 ∨ c.has_bit 10) := by
  have key : ∀ x ∈ EXTMEM_CACHE_ILG_INT_ST.fields, x.shift ≠ 9 ∧ x.shift ≠ 10 →
      x.length = 1 ∧
      (∃ e ∈ EXTMEM_CACHE_ILG_INT_ENA.fields, e.shift = x.shift ∧ e.length = 1 ∧
        (x.shift ∈ [0, 1, 5] → int_source e = int_source x)) ∧
      (∃ c ∈ EXTMEM_CACHE_ILG_INT_CLR.fields, c.shift = x.shift ∧ c.length = 1 ∧
        (x.shift ∈ [0, 1, 5] → int_source c = int_source x)) := by decide
  obtain ⟨h1, h2, h3⟩ := key f hf hpos
  exact ⟨h1, h2, h3, by decide, by decide, by decide, by decide, by decide⟩

/-- Witness of the amended C11 at the status bit `MMU_ENTRY_FAULT_ST`, bit 5. -/
theorem ilg_int_status_enable_clear_witness :
    (∃ e ∈ EXTMEM_CACHE_ILG_INT_ENA.fields,
      e.shift = (FIELD "EXTMEM_CACHE_ILG_INT_ST" "MMU_ENTRY_FAULT_ST" 5 1).shift ∧ e.length = 1 ∧
      ((FIELD "EXTMEM_CACHE_ILG_INT_ST" "MMU_ENTRY_FAULT_ST" 5 1).shift ∈ [0, 1, 5] →
        int_source e = int_source (FIELD "EXTMEM_CACHE_ILG_INT_ST" "MMU_ENTRY_FAULT_ST" 5 1))) ∧
    (∃ c ∈ EXTMEM_CACHE_ILG_INT_CLR.fields,
      c.shift = (FIELD "EXTMEM_CACHE_ILG_INT_ST" "MMU_ENTRY_FAULT_ST" 5 1).shift ∧ c.length = 1 ∧
      ((FIELD "EXTMEM_CACHE_ILG_INT_ST" "MMU_ENTRY_FAULT_ST" 5 1).shift ∈ [0, 1, 5] →
        int_source c = int_source (FIELD "EXTMEM_CACHE_ILG_INT_ST" "MMU_ENTRY_FAULT_ST" 5 1))) :=
  ⟨(ilg_int_status_enable_clear (FIELD "EXTMEM_CACHE_ILG_INT_ST" "MMU_ENTRY_FAULT_ST" 5 1)
      (by decide) (by decide)).2.1,
   (ilg_int_status_enable_clear (FIELD "EXTMEM_CACHE_ILG_INT_ST" "MMU_ENTRY_FAULT_ST" 5 1)
      (by decide) (by decide)).2.2.1⟩

/-- C12: `EXTMEM_CACHE_MMU_FAULT_CONTENT` holds a 4-bit fault code at bit 10
and a 10-bit fault content at bit 0, with no bit in common; for every table
index `i < ESP32S3_MMU_TABLE_ENTRY_COUNT` and every code `c < 16`, depositing
both into any register value, in either order, and reading both fields
returns exactly `c` and `i`. -/
theorem mmu_fault_content_round_trip (v i c : Nat) (hi : i < ESP32S3_MMU_TABLE_ENTRY_COUNT)
    (hc : c < 16) :
    EXTMEM_CACHE_MMU_FAULT_CONTENT.fields =
      [FIELD "EXTMEM_CACHE_MMU_FAULT_CONTENT" "CACHE_MMU_FAULT_CODE" 10 4,
       FIELD "EXTMEM_CACHE_MMU_FAULT_CONTENT" "CACHE_MMU_FAULT_CONTENT" 0 10] ∧
    (∀ bit, ¬ ((FIELD "EXTMEM_CACHE_MMU_FAULT_CONTENT" "CACHE_MMU_FAULT_CODE" 10 4).has_bit bit ∧
      (FIELD "EXTMEM_CACHE_MMU_FAULT_CONTENT" "CACHE_MMU_FAULT_CONTENT" 0 10).has_bit bit)) ∧
    i < 2 ^ 10 ∧
    FIELD_EX32
      (FIELD_DP32
        (FIELD_DP32 v (FIELD "EXTMEM_CACHE_MMU_FAULT_CONTENT" "CACHE_MMU_FAULT_CONTENT" 0 10) i)
        (FIELD "EXTMEM_CACHE_MMU_FAULT_CONTENT" "CACHE_MMU_FAULT_CODE" 10 4) c)
      (FIELD "EXTMEM_CACHE_MMU_FAULT_CONTENT" "CACHE_MMU_FAULT_CODE" 10 4) = c ∧
    FIELD_EX32
      (FIELD_DP32
        (FIELD_DP32 v (FIELD "EXTMEM_CACHE_MMU_FAULT_CONTENT" "CACHE_MMU_FAULT_CONTENT" 0 10) i)
        (FIELD "EXTMEM_CACHE_MMU_FAULT_CONTENT" "CACHE_MMU_FAULT_CODE" 10 4) c)
      (FIELD "EXTMEM_CACHE_MMU_FAULT_CONTENT" "CACHE_MMU_FAULT_CONTENT" 0 10) = i ∧
    FIELD_EX32
      (FIELD_DP32
        (FIELD_DP32 v (FIELD "EXTMEM_CACHE_MMU_FAULT_CONTENT" "CACHE_MMU_FAULT_CODE" 10 4) c)
        (FIELD "EXTMEM_CACHE_MMU_FAULT_CONTENT" "CACHE_MMU_FAULT_CONTENT" 0 10) i)
      (FIELD "EXTMEM_CACHE_MMU_FAULT_CONTENT" "CACHE_MMU_FAULT_CODE" 10 4) = c ∧
    FIELD_EX32
      (FIELD_DP32
        (FIELD_DP32 v (FIELD "EXTMEM_CACHE_MMU_FAULT_CONTENT" "CACHE_MMU_FAULT_CODE" 10 4) c)
        (FIELD "EXTMEM_CACHE_MMU_FAULT_CONTENT" "CACHE_MMU_FAULT_CONTENT" 0 10) i)
      (FIELD "EXTMEM_CACHE_MMU_FAULT_CONTENT" "CACHE_MMU_FAULT_CONTENT" 0 10) = i := by
  have hcount : ESP32S3_MMU_TABLE_ENTRY_COUNT = 512 := by decide
  have hi10 : i % 2 ^ 10 = i := Nat.mod_eq_of_lt (by omega)
  have hc4 : c % 2 ^ 4 = c := Nat.mod_eq_of_lt (by omega)
  refine ⟨by decide, ?_, by omega, ?_, ?_, ?_, ?_⟩
  · intro bit
    exact no_shared_bit _ _ (Or.inr (by decide)) bit
  · simp only [FIELD_EX32, FIELD_DP32, FIELD]
    rw [extract32_deposit32_same _ _ _ _ (by omega), hc4, hc4]
  · simp only [FIELD_EX32, FIELD_DP32, FIELD]
    rw [extract32_deposit32_other _ _ _ _ _ _ (by omega) (by omega) (by omega),
      extract32_deposit32_same _ _ _ _ (by omega), hi10, hi10]
  · simp only [FIELD_EX32, FIELD_DP32, FIELD]
    rw [extract32_deposit32_other _ _ _ _ _ _ (by omega) (by omega) (by omega),
      extract32_deposit32_same _ _ _ _ (by omega), hc4, hc4]
  · simp only [FIELD_EX32, FIELD_DP32, FIELD]
    rw [extract32_deposit32_same _ _ _ _ (by omega), hi10, hi10]

/-- Witness of C12 at the last table index 511 and the largest code 15,
deposited into a register value with every bit set. -/
theorem mmu_fault_content_round_trip_witness :
    FIELD_EX32
      (FIELD_DP32
        (FIELD_DP32 0xFFFFFFFF
          (FIELD "EXTMEM_CACHE_MMU_FAULT_CONTENT" "CACHE_MMU_FAULT_CONTENT" 0 10) 511)
        (FIELD "EXTMEM_CACHE_MMU_FAULT_CONTENT" "CACHE_MMU_FAULT_CODE" 10 4) 15)
      (FIELD "EXTMEM_CACHE_MMU_FAULT_CONTENT" "CACHE_MMU_FAULT_CODE" 10 4) = 15 ∧
    FIELD_EX32
      (FIELD_DP32
        (FIELD_DP32 0xFFFFFFFF
          (FIELD "EXTMEM_CACHE_MMU_FAULT_CONTENT" "CACHE_MMU_FAULT_CONTENT" 0 10) 511)
        (FIELD "EXTMEM_CACHE_MMU_FAULT_CONTENT" "CACHE_MMU_FAULT_CODE" 10 4) 15)
      (FIELD "EXTMEM_CACHE_MMU_FAULT_CONTENT" "CACHE_MMU_FAULT_CONTENT" 0 10) = 511 :=
  ⟨(mmu_fault_content_round_trip 0xFFFFFFFF 511 15 (by decide) (by decide)).2.2.2.1,
   (mmu_fault_content_round_trip 0xFFFFFFFF 511 15 (by decide) (by decide)).2.2.2.2.1⟩

/-- C13: for the instruction bus and the data bus, the permission table
declares exactly the three boundary registers `BOUNDARY0`, `BOUNDARY1`,
`BOUNDARY2`, each with one field, 12 bits wide at bit 0, and one lock
register `PMS_TBL_LOCK` whose only field is 1 bit wide at bit 0. -/
theorem pms_boundaries_and_lock (bus : String) (hbus : bus = "IBUS" ∨ bus = "DBUS") :
    (pms_boundary_regs bus).map (fun r => r.reg) =
      ["EXTMEM_" ++ bus ++ "_PMS_TBL_BOUNDARY0",
       "EXTMEM_" ++ bus ++ "_PMS_TBL_BOUNDARY1",
       "EXTMEM_" ++ bus ++ "_PMS_TBL_BOUNDARY2"] ∧
    (pms_boundary_regs bus).length = 3 ∧
    (pms_boundary_regs bus).map (fun r => r.fields.map fun f => f.field) =
      [[bus ++ "_PMS_BOUNDARY0"], [bus ++ "_PMS_BOUNDARY1"], [bus ++ "_PMS_BOUNDARY2"]] ∧
    (∀ r ∈ pms_boundary_regs bus, r.layout = [(0, 12)]) ∧
    (pms_lock_regs bus).length = 1 ∧
    (∀ r ∈ pms_lock_regs bus,
      r.layout = [(0, 1)] ∧ r.fields.map (fun f => f.field) = [bus ++ "_PMS_LOCK"]) := by
  rcases hbus with h | h <;> subst h <;> decide

/-- Witness of C13 at the data bus. -/
theorem pms_boundaries_and_lock_witness :
    (pms_boundary_regs "DBUS").length = 3 ∧
    (∀ r ∈ pms_boundary_regs "DBUS", r.layout = [(0, 12)]) ∧
    (pms_lock_regs "DBUS").length = 1 :=
  ⟨(pms_boundaries_and_lock "DBUS" (Or.inr rfl)).2.1,
   (pms_boundaries_and_lock "DBUS" (Or.inr rfl)).2.2.2.1,
   (pms_boundaries_and_lock "DBUS" (Or.inr rfl)).2.2.2.2.1⟩

/-- C14, as stated, fails: the attribute register of each bus defines two
attribute fields, `SCT2_ATTR` and `SCT1_ATTR`, not three; no field is
declared for a third section. -/
theorem pms_attr_has_two_fields :
    pms_attr_regs "IBUS" = [EXTMEM_IBUS_PMS_TBL_ATTR] ∧
    EXTMEM_IBUS_PMS_TBL_ATTR.fields.length = 2 ∧
    EXTMEM_IBUS_PMS_TBL_ATTR.fields.length ≠ 3 ∧
    pms_attr_regs "DBUS" = [EXTMEM_DBUS_PMS_TBL_ATTR] ∧
    EXTMEM_DBUS_PMS_TBL_ATTR.fields.length = 2 ∧
    EXTMEM_DBUS_PMS_TBL_ATTR.fields.length ≠ 3 := by
  decide

/-- C14 amended: each bus has one attribute register, and it defines exactly
two attribute fields, `<bus>_PMS_SCT2_ATTR` and `<bus>_PMS_SCT1_ATTR`, with no
bit in common: 4 bits each at the bits 4 and 0 for the instruction bus, 2 bits
each at the bits 2 and 0 for the data bus. -/
theorem pms_attr_fields (bus : String) (hbus : bus = "IBUS" ∨ bus = "DBUS") :
    (pms_attr_regs bus).length = 1 ∧
    ∀ r ∈ pms_attr_regs bus,
      r.reg = "EXTMEM_" ++ bus ++ "_PMS_TBL_ATTR" ∧
      r.fields.map (fun f => (f.field, f.shift, f.length)) =
        (if bus = "IBUS" then [("IBUS_PMS_SCT2_ATTR", 4, 4), ("IBUS_PMS_SCT1_ATTR", 0, 4)]
         else [("DBUS_PMS_SCT2_ATTR", 2, 2), ("DBUS_PMS_SCT1_ATTR", 0, 2)]) ∧
      r.fields.length = 2 ∧
      ∀ f ∈ r.fields, ∀ g ∈ r.fields, g ≠ f → ∀ bit, ¬ (f.has_bit bit ∧ g.has_bit bit) := by
  have key : ∀ b ∈ ["IBUS", "DBUS"],
      (pms_attr_regs b).length = 1 ∧
      ∀ r ∈ pms_attr_regs b,
        r.reg = "EXTMEM_" ++ b ++ "_PMS_TBL_ATTR" ∧
        r.fields.map (fun f => (f.field, f.shift, f.length)) =
          (if b = "IBUS" then [("IBUS_PMS_SCT2_ATTR", 4, 4), ("IBUS_PMS_SCT1_ATTR", 0, 4)]
           else [("DBUS_PMS_SCT2_ATTR", 2, 2), ("DBUS_PMS_SCT1_ATTR", 0, 2)]) ∧
        r.fields.length = 2 ∧
        ∀ f ∈ r.fields, ∀ g ∈ r.fields, g ≠ f →
          (f.shift + f.length ≤ g.shift ∨ g.shift + g.length ≤ f.shift) := by decide
  have hmem : bus ∈ ["IBUS", "DBUS"] := by
    rcases hbus with h | h <;> subst h <;> decide
  obtain ⟨h1, h2⟩ := key bus hmem
  refine ⟨h1, ?_⟩
  intro r hr
  obtain ⟨h3, h4, h5, h6⟩ := h2 r hr
  exact ⟨h3, h4, h5, fun f hf g hg hne bit => no_shared_bit f g (h6 f hf g hg hne) bit⟩

/-- Witness of the amended C14 at the data bus: the layout of
`EXTMEM_DBUS_PMS_TBL_ATTR`. -/
theorem pms_attr_fields_witness :
    EXTMEM_DBUS_PMS_TBL_ATTR.fields.map (fun f => (f.field, f.shift, f.length)) =
      [("DBUS_PMS_SCT2_ATTR", 2, 2), ("DBUS_PMS_SCT1_ATTR", 0, 2)] :=
  ((pms_attr_fields "DBUS" (Or.inr rfl)).2 EXTMEM_DBUS_PMS_TBL_ATTR (by decide)).2.1

/-- C15: for each core, every field of `EXTMEM_COREn_ACS_CACHE_INT_ST` is one
bit wide at a position 0..5, the enable and the clear register each define a
1-bit field at the same position, and the three registers of core 1 use the
bit positions of the three registers of core 0, the positions 5 down to 0. -/
theorem acs_cache_int_aligned (st ena clr : Reg32) (hcore : (st, ena, clr) ∈ acs_cache_int_regs)
    (f : Field) (hf : f ∈ st.fields) :
    f.length = 1 ∧ f.shift ≤ 5 ∧
    (∃ e ∈ ena.fields, e.shift = f.shift ∧ e.length = 1) ∧
    (∃ c ∈ clr.fields, c.shift = f.shift ∧ c.length = 1) ∧
    st.layout = [(5, 1), (4, 1), (3, 1), (2, 1), (1, 1), (0, 1)] ∧
    st.layout = EXTMEM_CORE0_ACS_CACHE_INT_ST.layout ∧
    ena.layout = EXTMEM_CORE0_ACS_CACHE_INT_ENA.layout ∧
    clr.layout = EXTMEM_CORE0_ACS_CACHE_INT_CLR.layout := by
  have key : ∀ t ∈ acs_cache_int_regs, ∀ x ∈ t.1.fields,
      x.length = 1 ∧ x.shift ≤ 5 ∧
      (∃ e ∈ t.2.1.fields, e.shift = x.shift ∧ e.length = 1) ∧
      (∃ c ∈ t.2.2.fields, c.shift = x.shift ∧ c.length = 1) ∧
      t.1.layout = [(5, 1), (4, 1), (3, 1), (2, 1), (1, 1), (0, 1)] ∧
      t.1.layout = EXTMEM_CORE0_ACS_CACHE_INT_ST.layout ∧
      t.2.1.layout = EXTMEM_CORE0_ACS_CACHE_INT_ENA.layout ∧
      t.2.2.layout = EXTMEM_CORE0_ACS_CACHE_INT_CLR.layout := by decide
  exact key (st, ena, clr) hcore f hf

/-- Witness of C15 at core 1 and its status bit 4. -/
theorem acs_cache_int_aligned_witness :
    (∃ e ∈ EXTMEM_CORE1_ACS_CACHE_INT_ENA.fields, e.shift = 4 ∧ e.length = 1) ∧
    (∃ c ∈ EXTMEM_CORE1_ACS_CACHE_INT_CLR.fields, c.shift = 4 ∧ c.length = 1) :=
  ⟨(acs_cache_int_aligned EXTMEM_CORE1_ACS_CACHE_INT_ST EXTMEM_CORE1_ACS_CACHE_INT_ENA
      EXTMEM_CORE1_ACS_CACHE_INT_CLR (by decide)
      (FIELD "EXTMEM_CORE1_ACS_CACHE_INT_ST" "CORE1_DBUS_REJECT_ST" 4 1) (by decide)).2.2.1,
   (acs_cache_int_aligned EXTMEM_CORE1_ACS_CACHE_INT_ST EXTMEM_CORE1_ACS_CACHE_INT_ENA
      EXTMEM_CORE1_ACS_CACHE_INT_CLR (by decide)
      (FIELD "EXTMEM_CORE1_ACS_CACHE_INT_ST" "CORE1_DBUS_REJECT_ST" 4 1) (by decide)).2.2.2.1⟩

/-! ### The register map as a whole -/

/-- C16 evaluated on the header: the register map is not injective.
`EXTMEM_ICACHE_SYNC_ADDR` is declared at `0x6C`, the offset of
`EXTMEM_ICACHE_PRELOCK_CTRL`, while `0x8C`, the slot between
`EXTMEM_ICACHE_SYNC_CTRL` and `EXTMEM_ICACHE_SYNC_SIZE`, holds no register;
the ten `EXTMEM_IBUS_PMS_TBL_*` and `EXTMEM_DBUS_PMS_TBL_*` registers are
declared at `0x138..0x15C`, each on a register declared before.  These eleven
pairs are all the pairs that share an offset. -/
theorem register_map_aliases :
    EXTMEM_ICACHE_PRELOCK_CTRL ∈ register_map ∧
    EXTMEM_ICACHE_SYNC_ADDR ∈ register_map ∧
    EXTMEM_ICACHE_PRELOCK_CTRL ≠ EXTMEM_ICACHE_SYNC_ADDR ∧
    EXTMEM_ICACHE_PRELOCK_CTRL.A = 0x6C ∧
    EXTMEM_ICACHE_SYNC_ADDR.A = 0x6C ∧
    EXTMEM_DCACHE_SYNC_ADDR.A + 0x060 = 0x8C ∧
    EXTMEM_ICACHE_SYNC_CTRL.A = 0x88 ∧
    EXTMEM_ICACHE_SYNC_SIZE.A = 0x90 ∧
    (∀ r ∈ register_map, r.A ≠ 0x8C) ∧
    (¬ ∀ r1 ∈ register_map, ∀ r2 ∈ register_map, r1.A = r2.A → r1 = r2) ∧
    aliased_pairs.map (fun p => (p.1.reg, p.2.reg, p.1.A)) =
      [("EXTMEM_ICACHE_PRELOCK_CTRL", "EXTMEM_ICACHE_SYNC_ADDR", 0x6C),
       ("EXTMEM_CACHE_ENCRYPT_DECRYPT_CLK_FORCE_ON", "EXTMEM_IBUS_PMS_TBL_LOCK", 0x138),
       ("EXTMEM_CACHE_BRIDGE_ARBITER_CTRL", "EXTMEM_IBUS_PMS_TBL_BOUNDARY0", 0x13C),
       ("EXTMEM_CACHE_PRELOAD_INT_CTRL", "EXTMEM_IBUS_PMS_TBL_BOUNDARY1", 0x140),
       ("EXTMEM_CACHE_SYNC_INT_CTRL", "EXTMEM_IBUS_PMS_TBL_BOUNDARY2", 0x144),
       ("EXTMEM_CACHE_MMU_OWNER", "EXTMEM_IBUS_PMS_TBL_ATTR", 0x148),
       ("EXTMEM_CACHE_CONF_MISC", "EXTMEM_DBUS_PMS_TBL_LOCK", 0x14C),
       ("EXTMEM_DCACHE_FREEZE", "EXTMEM_DBUS_PMS_TBL_BOUNDARY0", 0x150),
       ("EXTMEM_ICACHE_FREEZE", "EXTMEM_DBUS_PMS_TBL_BOUNDARY1", 0x154),
       ("EXTMEM_ICACHE_ATOMIC_OPERATE_ENA", "EXTMEM_DBUS_PMS_TBL_BOUNDARY2", 0x158),
       ("EXTMEM_DCACHE_ATOMIC_OPERATE_ENA", "EXTMEM_DBUS_PMS_TBL_ATTR", 0x15C)] := by
  refine ⟨by decide, by decide, by decide, by decide, by decide, by decide, by decide, by decide,
    by decide, ?_, by decide⟩
  intro h
  have h1 := h EXTMEM_ICACHE_PRELOCK_CTRL (by decide) EXTMEM_ICACHE_SYNC_ADDR (by decide)
    (by decide)
  exact absurd h1 (by decide)

/-- C17: within every declared register each field has width at least 1 and
ends at or below bit 32, no bit belongs to two fields of the register, and
depositing a value into one field leaves the read of every other field of
that register unchanged, while the field itself reads back the deposited
value reduced to its width. -/
theorem fields_disjoint_frame (r : Reg32) (hr : r ∈ register_map) (f : Field)
    (hf : f ∈ r.fields) :
    1 ≤ f.length ∧ f.shift + f.length ≤ 32 ∧
    (∀ v x : Nat, FIELD_EX32 (FIELD_DP32 v f x) f = x % 2 ^ f.length) ∧
    ∀ g ∈ r.fields, g ≠ f →
      (∀ bit, ¬ (f.has_bit bit ∧ g.has_bit bit)) ∧
      ∀ v x : Nat, FIELD_EX32 (FIELD_DP32 v f x) g = FIELD_EX32 v g := by
  have key : ∀ y ∈ register_map, ∀ a ∈ y.fields,
      1 ≤ a.length ∧ a.shift + a.length ≤ 32 ∧
      ∀ b ∈ y.fields, b ≠ a →
        (a.shift + a.length ≤ b.shift ∨ b.shift + b.length ≤ a.shift) := by decide
  obtain ⟨h1, h2, h3⟩ := key r hr f hf
  refine ⟨h1, h2, ?_, ?_⟩
  · intro v x
    simp only [FIELD_EX32, FIELD_DP32]
    rw [extract32_deposit32_same _ _ _ _ h2, Nat.mod_mod]
  · intro g hg hne
    have hdis := h3 g hg hne
    have hg32 : g.shift + g.length ≤ 32 := (key r hr g hg).2.1
    refine ⟨fun bit => no_shared_bit f g hdis bit, ?_⟩
    intro v x
    simp only [FIELD_EX32, FIELD_DP32]
    exact extract32_deposit32_other _ _ _ _ _ _ h2 hg32 hdis

/-- Witness of C17 at `EXTMEM_CACHE_STATE` and its field `ICACHE_STATE`,
bits 12..23, next to `DCACHE_STATE`, bits 0..11. -/
theorem fields_disjoint_frame_witness :
    (∀ v x : Nat,
      FIELD_EX32 (FIELD_DP32 v (FIELD "EXTMEM_CACHE_STATE" "ICACHE_STATE" 12 12) x)
        (FIELD "EXTMEM_CACHE_STATE" "ICACHE_STATE" 12 12) = x % 2 ^ 12) ∧
    (∀ v x : Nat,
      FIELD_EX32 (FIELD_DP32 v (FIELD "EXTMEM_CACHE_STATE" "ICACHE_STATE" 12 12) x)
        (FIELD "EXTMEM_CACHE_STATE" "DCACHE_STATE" 0 12)
      = FIELD_EX32 v (FIELD "EXTMEM_CACHE_STATE" "DCACHE_STATE" 0 12)) :=
  ⟨(fields_disjoint_frame EXTMEM_CACHE_STATE (by decide)
      (FIELD "EXTMEM_CACHE_STATE" "ICACHE_STATE" 12 12) (by decide)).2.2.1,
   ((fields_disjoint_frame EXTMEM_CACHE_STATE (by decide)
      (FIELD "EXTMEM_CACHE_STATE" "ICACHE_STATE" 12 12) (by decide)).2.2.2
      (FIELD "EXTMEM_CACHE_STATE" "DCACHE_STATE" 0 12) (by decide) (by decide)).2⟩

/-- C18: no address lies in both cache windows, neither window wraps past
`2 ^ 32`, both bases are multiples of the page size, and an address of a
window splits into the base, its page index times the page size and its
in-page offset `a mod ESP32S3_PAGE_SIZE`. -/
theorem cache_windows_disjoint (a base : Nat)
    (hbase : base = ESP32S3_DCACHE_BASE ∨ base = ESP32S3_ICACHE_BASE) :
    ¬ ((ESP32S3_DCACHE_BASE ≤ a ∧ a < ESP32S3_DCACHE_BASE + ESP32S3_EXTMEM_REGION_SIZE) ∧
       (ESP32S3_ICACHE_BASE ≤ a ∧ a < ESP32S3_ICACHE_BASE + ESP32S3_EXTMEM_REGION_SIZE)) ∧
    ESP32S3_DCACHE_BASE + ESP32S3_EXTMEM_REGION_SIZE ≤ UINT32_MOD ∧
    ESP32S3_ICACHE_BASE + ESP32S3_EXTMEM_REGION_SIZE ≤ UINT32_MOD ∧
    ESP32S3_DCACHE_BASE + ESP32S3_EXTMEM_REGION_SIZE ≤ ESP32S3_ICACHE_BASE ∧
    ESP32S3_DCACHE_BASE % ESP32S3_PAGE_SIZE = 0 ∧
    ESP32S3_ICACHE_BASE % ESP32S3_PAGE_SIZE = 0 ∧
    (base ≤ a → a < base + ESP32S3_EXTMEM_REGION_SIZE →
      a < UINT32_MOD ∧
      (a - base) / ESP32S3_PAGE_SIZE < ESP32S3_MMU_TABLE_ENTRY_COUNT ∧
      (a - base) % ESP32S3_PAGE_SIZE = a % ESP32S3_PAGE_SIZE ∧
      a = base + (a - base) / ESP32S3_PAGE_SIZE * ESP32S3_PAGE_SIZE + a % ESP32S3_PAGE_SIZE) := by
  simp only [ESP32S3_ICACHE_BASE, ESP32S3_DCACHE_BASE, ESP32S3_EXTMEM_REGION_SIZE,
    ESP32S3_PAGE_SIZE, ESP32S3_MMU_TABLE_ENTRY_COUNT, ESP32S3_MMU_SIZE, sizeof_uint32_t,
    UINT32_MOD] at *
  norm_num
  refine ⟨by omega, ?_⟩
  rcases hbase with h | h <;> subst h <;> omega

/-- Witness of C18 at the instruction window and an address in its page 2. -/
theorem cache_windows_disjoint_witness :
    0x42020064 < UINT32_MOD ∧
    (0x42020064 - ESP32S3_ICACHE_BASE) / ESP32S3_PAGE_SIZE < ESP32S3_MMU_TABLE_ENTRY_COUNT ∧
    (0x42020064 - ESP32S3_ICACHE_BASE) % ESP32S3_PAGE_SIZE = 0x42020064 % ESP32S3_PAGE_SIZE ∧
    0x42020064 = ESP32S3_ICACHE_BASE
      + (0x42020064 - ESP32S3_ICACHE_BASE) / ESP32S3_PAGE_SIZE * ESP32S3_PAGE_SIZE
      + 0x42020064 % ESP32S3_PAGE_SIZE :=
  (cache_windows_disjoint 0x42020064 ESP32S3_ICACHE_BASE (Or.inr rfl)).2.2.2.2.2.2
    (by decide) (by decide)

/-! ### MMU table writes and translation -/

/-- C2: for every value `v` written to a table entry, the entry stored at a
valid index reads back `reserved = 0`: the reserved bits 9..31 of `v` are
masked off and never stored, while `page_number` and `invalid` are the bits
0..7 and 8 of `v`; the write succeeds, the stored entry is below `2 ^ 9`, and
no other entry changes. -/
theorem written_entry_reserved_zero (s : ESP32S3CacheState) (index v : Nat)
    (hindex : index < ESP32S3_MMU_TABLE_ENTRY_COUNT) :
    ∃ s', write_mmu_value s index v = .ok s' ∧
      ∃ e, get_entry s' index = .ok e ∧
        e.reserved = 0 ∧
        e.val < 2 ^ 9 ∧
        e.val = v % 2 ^ 9 ∧
        e.page_number = v % 2 ^ 8 ∧
        e.invalid = v / 2 ^ 8 % 2 ∧
        ∀ j, j ≠ index → get_entry s' j = get_entry s j := by
  refine ⟨mmu_set s index (mmu_entry_of_write v), by simp [write_mmu_value, hindex],
    mmu_entry_of_write v, by simp [get_entry, mmu_at, mmu_set, hindex], ?_, ?_, ?_, ?_, ?_, ?_⟩
  · simp only [mmu_entry_of_write, set_reserved, of_val, reserved, UINT32_MOD]
    norm_num
  · simp only [mmu_entry_of_write, set_reserved, of_val, UINT32_MOD]
    norm_num
    omega
  · simp only [mmu_entry_of_write, set_reserved, of_val, UINT32_MOD]
    norm_num
  · simp only [mmu_entry_of_write, set_reserved, of_val, page_number, UINT32_MOD]
    norm_num
  · simp only [mmu_entry_of_write, set_reserved, of_val, invalid, UINT32_MOD]
    norm_num
    omega
  · intro j hj
    simp only [get_entry, mmu_at, mmu_set]
    by_cases hjlt : j < ESP32S3_MMU_TABLE_ENTRY_COUNT
    · simp [hjlt, hj]
    · simp [hjlt]

/-- Witness of C2: the value `0xFFFFFFFF`, every reserved bit set, written to
the last entry of the table. -/
theorem written_entry_reserved_zero_witness :
    ∃ s', write_mmu_value scenario_state 511 0xFFFFFFFF = .ok s' ∧
      ∃ e, get_entry s' 511 = .ok e ∧
        e.reserved = 0 ∧
        e.val < 2 ^ 9 ∧
        e.val = 0xFFFFFFFF % 2 ^ 9 ∧
        e.page_number = 0xFFFFFFFF % 2 ^ 8 ∧
        e.invalid = 0xFFFFFFFF / 2 ^ 8 % 2 ∧
        ∀ j, j ≠ 511 → get_entry s' j = get_entry scenario_state j :=
  written_entry_reserved_zero scenario_state 511 0xFFFFFFFF (by decide)

/-- C10, as stated, fails: `EXTMEM_DCACHE_FREEZE` has the counterpart
`EXTMEM_ICACHE_FREEZE`, and its field `DCACHE_FREEZE_DONE` does not exist under
that name in the counterpart, whose field at the same bit is
`ICACHE_FREEZE_DONE`; likewise `DCACHE_ATOMIC_OPERATE_ENA` in
`EXTMEM_DCACHE_ATOMIC_OPERATE_ENA`. -/
theorem freeze_fields_named_per_cache :
    (EXTMEM_DCACHE_FREEZE, EXTMEM_ICACHE_FREEZE) ∈ all_mirror_pairs ∧
    FIELD "EXTMEM_DCACHE_FREEZE" "DCACHE_FREEZE_DONE" 2 1 ∈ EXTMEM_DCACHE_FREEZE.fields ∧
    (¬ ∃ g ∈ EXTMEM_ICACHE_FREEZE.fields, g.field = "DCACHE_FREEZE_DONE") ∧
    FIELD "EXTMEM_ICACHE_FREEZE" "ICACHE_FREEZE_DONE" 2 1 ∈ EXTMEM_ICACHE_FREEZE.fields ∧
    (EXTMEM_DCACHE_ATOMIC_OPERATE_ENA, EXTMEM_ICACHE_ATOMIC_OPERATE_ENA) ∈ all_mirror_pairs ∧
    FIELD "EXTMEM_DCACHE_ATOMIC_OPERATE_ENA" "DCACHE_ATOMIC_OPERATE_ENA" 0 1
      ∈ EXTMEM_DCACHE_ATOMIC_OPERATE_ENA.fields ∧
    (¬ ∃ g ∈ EXTMEM_ICACHE_ATOMIC_OPERATE_ENA.fields, g.field = "DCACHE_ATOMIC_OPERATE_ENA") := by
  decide

/-- C10 amended: the data-cache registers with an instruction-cache
counterpart are the 15 registers of the control block, `FREEZE` and
`ATOMIC_OPERATE_ENA`.  In each of the 17 pairs the two registers declare the
same bit offsets and widths in the same order, every field of the one has a
field of the other at the same bit offset with the same width, and a field
read of a 32-bit value gives the same result through either.  The two fields
carry the same name in the 15 control-block pairs; in `FREEZE` and
`ATOMIC_OPERATE_ENA` the names are `DCACHE_` and `ICACHE_` followed by the
same rest. -/
theorem mirror_layouts_identical (d i : Reg32) (hpair : (d, i) ∈ all_mirror_pairs) :
    all_mirror_pairs = mirror_pairs ++
      [(EXTMEM_DCACHE_FREEZE, EXTMEM_ICACHE_FREEZE),
       (EXTMEM_DCACHE_ATOMIC_OPERATE_ENA, EXTMEM_ICACHE_ATOMIC_OPERATE_ENA)] ∧
    mirror_pairs.length = 15 ∧
    all_mirror_pairs.map (fun pair => (reg_stem "EXTMEM_DCACHE_" pair.1,
        reg_stem "EXTMEM_ICACHE_" pair.2)) =
      (["CTRL", "CTRL1", "TAG_POWER_CTRL", "PRELOCK_CTRL", "PRELOCK_SCT0_ADDR",
        "PRELOCK_SCT1_ADDR", "PRELOCK_SCT_SIZE", "LOCK_CTRL", "LOCK_ADDR", "LOCK_SIZE",
        "SYNC_CTRL", "SYNC_ADDR", "SYNC_SIZE", "PRELOAD_CTRL", "AUTOLOAD_CTRL", "FREEZE",
        "ATOMIC_OPERATE_ENA"].map fun x => (some x.toList, some x.toList)) ∧
    d.layout = i.layout ∧
    (∀ f ∈ d.fields, ∃ g ∈ i.fields,
      g.shift = f.shift ∧ g.length = f.length ∧
      ((d, i) ∈ mirror_pairs → g.field = f.field) ∧
      ((d, i) ∉ mirror_pairs →
        f.field.toList = "DCACHE_".toList ++ cache_free_name f ∧
        g.field.toList = "ICACHE_".toList ++ cache_free_name f) ∧
      ∀ v : Nat, FIELD_EX32 v f = FIELD_EX32 v g) ∧
    (∀ g ∈ i.fields, ∃ f ∈ d.fields,
      f.shift = g.shift ∧ f.length = g.length ∧
      ((d, i) ∈ mirror_pairs → f.field = g.field) ∧
      ((d, i) ∉ mirror_pairs →
        f.field.toList = "DCACHE_".toList ++ cache_free_name g ∧
        g.field.toList = "ICACHE_".toList ++ cache_free_name g) ∧
      ∀ v : Nat, FIELD_EX32 v f = FIELD_EX32 v g) := by
  have hlayout : ∀ pair ∈ all_mirror_pairs, pair.1.layout = pair.2.layout := by decide
  have hfwd : ∀ pair ∈ all_mirror_pairs, ∀ f ∈ pair.1.fields, ∃ g ∈ pair.2.fields,
      g.shift = f.shift ∧ g.length = f.length ∧
      (pair ∈ mirror_pairs → g.field = f.field) ∧
      (pair ∉ mirror_pairs →
        f.field.toList = "DCACHE_".toList ++ cache_free_name f ∧
        g.field.toList = "ICACHE_".toList ++ cache_free_name f) := by decide
  have hbwd : ∀ pair ∈ all_mirror_pairs, ∀ g ∈ pair.2.fields, ∃ f ∈ pair.1.fields,
      f.shift = g.shift ∧ f.length = g.length ∧
      (pair ∈ mirror_pairs → f.field = g.field) ∧
      (pair ∉ mirror_pairs →
        f.field.toList = "DCACHE_".toList ++ cache_free_name g ∧
        g.field.toList = "ICACHE_".toList ++ cache_free_name g) := by decide
  refine ⟨by decide, by decide, by decide, hlayout (d, i) hpair, ?_, ?_⟩
  · intro f hf
    obtain ⟨g, hg, hs, hl, hn1, hn2⟩ := hfwd (d, i) hpair f hf
    exact ⟨g, hg, hs, hl, hn1, hn2, fun v => by simp only [FIELD_EX32, hs, hl]⟩
  · intro g hg
    obtain ⟨f, hf, hs, hl, hn1, hn2⟩ := hbwd (d, i) hpair g hg
    exact ⟨f, hf, hs, hl, hn1, hn2, fun v => by simp only [FIELD_EX32, hs, hl]⟩

/-- Witness of the amended C10 at the pair of the `FREEZE` registers. -/
theorem mirror_layouts_identical_witness :
    EXTMEM_DCACHE_FREEZE.layout = EXTMEM_ICACHE_FREEZE.layout ∧
    (∀ f ∈ EXTMEM_DCACHE_FREEZE.fields, ∃ g ∈ EXTMEM_ICACHE_FREEZE.fields,
      g.shift = f.shift ∧ g.length = f.length ∧
      ((EXTMEM_DCACHE_FREEZE, EXTMEM_ICACHE_FREEZE) ∈ mirror_pairs → g.field = f.field) ∧
      ((EXTMEM_DCACHE_FREEZE, EXTMEM_ICACHE_FREEZE) ∉ mirror_pairs →
        f.field.toList = "DCACHE_".toList ++ cache_free_name f ∧
        g.field.toList = "ICACHE_".toList ++ cache_free_name f) ∧
      ∀ v : Nat, FIELD_EX32 v f = FIELD_EX32 v g) :=
  ⟨(mirror_layouts_identical EXTMEM_DCACHE_FREEZE EXTMEM_ICACHE_FREEZE (by decide)).2.2.2.1,
   (mirror_layouts_identical EXTMEM_DCACHE_FREEZE EXTMEM_ICACHE_FREEZE (by decide)).2.2.2.2.1⟩

end ESP32S3Cache
